import Mathlib

/-!
Package svc of go-svc: the signal registry and the two lifecycle runners.

A shallow embedding of package `svc` (svc.go, svc_other.go, svc_windows.go).

* The package variable `signalNotifier` is passed explicitly: `Notify` returns
  its new value, the runners read it.
* Calls that leave the package (the three Service methods, registered signal
  handlers, `signalNotify`, `svcIsAnInteractiveSession`, `os.Chdir`, `svcRun`)
  and channel operations are recorded, in program order, as a list of `Event`s.
* A Service method is given by the error it returns; a registered handler by
  its name. Neither calls back into the package, so `signalNotifier` keeps its
  value while a runner executes.
* A channel the code receives from is the finite list of the values that are
  delivered on it; a receive when the list is exhausted is `Outcome.blocked`.
* A runtime failure (a write to a nil map, a call through a nil func or a nil
  interface) is `Outcome.panicked`.
* The mutex `errSync` is left out: the embedding is sequential.
-/

namespace Svc

/-! ## Go values -/

/-- An `os.Signal` value, by its signal number (`syscall.Signal` is an int). -/
abbrev Signal := Int

/-- The constant `syscall.SIGINT` (0x2). -/
def SIGINT : Signal := 2

/-- The constant `syscall.SIGTERM` (0xf). -/
def SIGTERM : Signal := 15

/-- A Go `error` value: `none` is nil, `some msg` is a non-nil error. -/
abbrev Error := Option String

/-- How a Go function call ends. -/
inductive Outcome (α : Type) where
  /-- The call returned `v`. -/
  | ret (v : α)
  /-- The call ended in a runtime panic. -/
  | panicked (msg : String)
  /-- The call waits for ever on a channel on which nothing more is delivered. -/
  | blocked
deriving DecidableEq, Repr

/-- A Go `map[K]V` value. `nil` is the zero value of the map type (never made);
`mk es` is a made map holding the entries `es`. The order of `es` stands for
the order in which a `range` statement visits the map; Go leaves that order
open, and every list is a possible one. -/
inductive GoMap (K V : Type) where
  | nil
  | mk (entries : List (K × V))
deriving DecidableEq, Repr

namespace GoMap

variable {K V : Type} [DecidableEq K]

/-- First binding of `k` in an entry list. -/
def find : List (K × V) → K → Option V
  | [], _ => none
  | (k', v) :: es, k => if k' = k then some v else find es k

/-- Rebind `k` where it is bound, or add it as a new entry. -/
def put : List (K × V) → K → V → List (K × V)
  | [], k, v => [(k, v)]
  | (k', v') :: es, k, v => if k' = k then (k, v) :: es else (k', v') :: put es k v

/-- The read `v, ok := m[k]`: `some v` when `ok`, `none` otherwise. Reading a
nil map finds nothing. -/
def lookup : GoMap K V → K → Option V
  | nil, _ => none
  | mk es, k => find es k

/-- The keys visited by `for k := range m`; a nil map has none. -/
def keys : GoMap K V → List K
  | nil => []
  | mk es => es.map Prod.fst

/-- The assignment `m[k] = v`. `none` is the runtime panic
"assignment to entry in nil map". -/
def store : GoMap K V → K → V → Option (GoMap K V)
  | nil, _, _ => none
  | mk es, k, v => some (mk (put es k v))

end GoMap

/-- The message of the runtime panic raised by a write to a nil map. -/
def nilMapPanic : String := "assignment to entry in nil map"

/-- The message of the runtime panic raised by a call through a nil func value
or a nil interface value. -/
def nilFuncPanic : String :=
  "runtime error: invalid memory address or nil pointer dereference"

/-! ## svc.go -/

/-- A value of type `SignalReceive` (`func(signal os.Signal)`): `none` is the
nil func, `some n` is the function named `n`. Calling it is recorded as
`Event.receive n sig`. -/
abbrev SignalReceive := Option Nat

/-- The type of the package variable `signalNotifier`. -/
abbrev Registry := GoMap Signal SignalReceive

/-- `Notify(sig, receive)` run on the package variable `signalNotifier`:
the result of the call and the value of `signalNotifier` afterwards. -/
def Notify (sig : Signal) (receive : SignalReceive) (signalNotifier : Registry) :
    Outcome Error × Registry :=
  if sig = SIGINT ∨ sig = SIGTERM then
    (Outcome.ret (some "signal was reserved"), signalNotifier)
  else
    let made : Registry :=
      if signalNotifier = GoMap.nil then GoMap.mk [] else signalNotifier
    match made.store sig receive with
    | none => (Outcome.panicked nilMapPanic, made)
    | some m => (Outcome.ret none, m)

/-- A value of the interface `Environment`, given by what its one method
`IsWindowsService()` reports. -/
structure Environment where
  IsWindowsService : Bool
deriving DecidableEq, Repr

/-- A non-nil value of the interface `Service`: what each of its three methods
returns when called. That a method is called is recorded by the caller as
`Event.init`, `Event.start` or `Event.stop`. -/
structure Service where
  Init : Environment → Error
  Start : Unit → Error
  Stop : Unit → Error

/-! ## golang.org/x/sys/windows/svc, as far as svc_windows.go uses it -/

namespace wsvc

/-- The type `svc.State` (a uint32). -/
abbrev State := Nat

/-- The constant `svc.Stopped` (SERVICE_STOPPED). -/
def Stopped : State := 1

/-- The constant `svc.StartPending` (SERVICE_START_PENDING). -/
def StartPending : State := 2

/-- The constant `svc.StopPending` (SERVICE_STOP_PENDING). -/
def StopPending : State := 3

/-- The constant `svc.Running` (SERVICE_RUNNING). -/
def Running : State := 4

/-- The type `svc.Cmd` (a uint32). -/
abbrev Cmd := Nat

/-- The constant `svc.Stop` (SERVICE_CONTROL_STOP). -/
def Stop : Cmd := 1

/-- The constant `svc.Pause` (SERVICE_CONTROL_PAUSE). -/
def Pause : Cmd := 2

/-- The constant `svc.Continue` (SERVICE_CONTROL_CONTINUE). -/
def Continue : Cmd := 3

/-- The constant `svc.Interrogate` (SERVICE_CONTROL_INTERROGATE). -/
def Interrogate : Cmd := 4

/-- The constant `svc.Shutdown` (SERVICE_CONTROL_SHUTDOWN). -/
def Shutdown : Cmd := 5

/-- The type `svc.Accepted` (a uint32 bit set). -/
abbrev Accepted := Nat

/-- The constant `svc.AcceptStop` (SERVICE_ACCEPT_STOP). -/
def AcceptStop : Accepted := 1

/-- The constant `svc.AcceptShutdown` (SERVICE_ACCEPT_SHUTDOWN). -/
def AcceptShutdown : Accepted := 4

/-- The struct `svc.Status`; a field left out of a literal is zero. -/
structure Status where
  State : State
  Accepts : Accepted
  CheckPoint : Nat
  WaitHint : Nat
deriving DecidableEq, Repr

/-- The struct `svc.ChangeRequest`. -/
structure ChangeRequest where
  Cmd : Cmd
  CurrentStatus : Status
deriving DecidableEq, Repr

end wsvc

/-! ## Observable events -/

/-- One observable step of a run. -/
inductive Event where
  /-- The call `service.Init(env)`. -/
  | init (env : Environment)
  /-- The call `Start()` on the service. -/
  | start
  /-- The call `Stop()` on the service. -/
  | stop
  /-- The call `notify(sig)` of the registered function named `n`. -/
  | receive (n : Nat) (sig : Signal)
  /-- The call `signalNotify(signalChan, sigs...)`. -/
  | signalNotify (sigs : List Signal)
  /-- The receive `sig := <-signalChan`. -/
  | signal (sig : Signal)
  /-- The call `svcIsAnInteractiveSession()`. -/
  | isAnInteractiveSession
  /-- The call `os.Chdir(dir)`. -/
  | chdir
  /-- The call `svcRun(name, ws)`. -/
  | svcRun (name : String)
  /-- The receive `c := <-r`. -/
  | request (c : wsvc.ChangeRequest)
  /-- The send `changes <- s`. -/
  | status (s : wsvc.Status)
deriving DecidableEq, Repr

/-- What a call did: how it ended, the state of its receiver afterwards, and
the events it produced, in order. -/
structure Result (σ α : Type) where
  out : Outcome α
  st : σ
  trace : List Event

/-- The events `evs` happen first, then the call `r`. -/
def Result.after {σ α : Type} (evs : List Event) (r : Result σ α) : Result σ α :=
  { r with trace := evs ++ r.trace }

/-- The statuses sent on `changes`, in order. -/
def statuses : List Event → List wsvc.Status
  | [] => []
  | Event.status s :: t => s :: statuses t
  | _ :: t => statuses t

/-- The signal lists handed to `signalNotify`, in order. -/
def subscriptions : List Event → List (List Signal)
  | [] => []
  | Event.signalNotify sigs :: t => sigs :: subscriptions t
  | _ :: t => subscriptions t

/-- The body of `for _, sig := range signals { signalMap[sig] = struct{}{} }`.
`none` is the panic of a write to a nil map. -/
def fillSignalMap : List Signal → GoMap Signal Unit → Option (GoMap Signal Unit)
  | [], signalMap => some signalMap
  | sig :: signals, signalMap =>
    match signalMap.store sig () with
    | none => none
    | some m => fillSignalMap signals m

/-! ## svc_other.go (build tag !windows) -/

/-- The struct `otherService`. The interface field `service` is `none` when it
holds the nil interface. -/
structure otherService where
  service : Option Service
  signals : List Signal
  signalMap : GoMap Signal Unit

/-- The method `environment.IsWindowsService`. -/
def environment.IsWindowsService : Bool := false

/-- The value `environment{}` as an `Environment`. -/
def environment : Environment := ⟨environment.IsWindowsService⟩

/-- The `for { sig := <-signalChan ... }` loop of `otherService.run`, on the
signals still to be delivered. -/
def otherService.loop (signalNotifier : Registry) (svr : otherService) :
    List Signal → Result otherService Error
  | [] => ⟨Outcome.blocked, svr, []⟩
  | sig :: signalChan =>
    match signalNotifier.lookup sig with
    | some (some n) =>
      (otherService.loop signalNotifier svr signalChan).after
        [Event.signal sig, Event.receive n sig]
    | some none => ⟨Outcome.panicked nilFuncPanic, svr, [Event.signal sig]⟩
    | none =>
      match svr.signalMap.lookup sig with
      | some _ =>
        match svr.service with
        | none => ⟨Outcome.panicked nilFuncPanic, svr, [Event.signal sig]⟩
        | some service => ⟨Outcome.ret (service.Stop ()), svr, [Event.signal sig, Event.stop]⟩
      | none => (otherService.loop signalNotifier svr signalChan).after [Event.signal sig]

/-- The method `otherService.run`. -/
def otherService.run (signalNotifier : Registry) (signalChan : List Signal)
    (svr : otherService) : Result otherService Error :=
  -- for sig := range signalNotifier { svr.signals = append(svr.signals, sig) }
  let svr : otherService := { svr with signals := svr.signals ++ signalNotifier.keys }
  -- for _, sig := range svr.signals { svr.signalMap[sig] = struct{}{} }
  match fillSignalMap svr.signals svr.signalMap with
  | none => ⟨Outcome.panicked nilMapPanic, svr, []⟩
  | some m =>
    let svr : otherService := { svr with signalMap := m }
    (otherService.loop signalNotifier svr signalChan).after [Event.signalNotify svr.signals]

namespace Other

/-- The function `Run` of svc_other.go. The receiver state of the result is the
`otherService` value, once it has been created. -/
def Run (signalNotifier : Registry) (signalChan : List Signal)
    (service : Service) (sig : List Signal) : Result (Option otherService) Error :=
  let env := environment
  match service.Init env with
  | some err => ⟨Outcome.ret (some err), none, [Event.init env]⟩
  | none =>
    match service.Start () with
    | some err => ⟨Outcome.ret (some err), none, [Event.init env, Event.start]⟩
    | none =>
      let sig := if sig.length = 0 then [SIGINT, SIGTERM] else sig
      -- svr := &otherService{}; svr.signals = sig
      let svr : otherService := { service := none, signals := sig, signalMap := GoMap.nil }
      let r := otherService.run signalNotifier signalChan svr
      ⟨r.out, some r.st, [Event.init env, Event.start] ++ r.trace⟩

end Other

/-! ## svc_windows.go (build tag windows) -/

/-- The struct `windowsService`, without its mutex `errSync`. The interface
field `i` is `none` when it holds the nil interface. -/
structure windowsService where
  i : Option Service
  stopStartErr : Error
  isInteractive : Bool
  signals : List Signal
  signalMap : GoMap Signal Unit
  Name : String

namespace windowsService

/-- The method `setError`: the receiver afterwards. -/
def setError (ws : windowsService) (err : Error) : windowsService :=
  { ws with stopStartErr := err }

/-- The method `getError`. -/
def getError (ws : windowsService) : Error :=
  ws.stopStartErr

/-- The method `windowsService.IsWindowsService`. -/
def IsWindowsService (ws : windowsService) : Bool :=
  !ws.isInteractive

/-- The pointer `ws` seen as an `Environment`. -/
def toEnvironment (ws : windowsService) : Environment :=
  ⟨ws.IsWindowsService⟩

/-- The constant `cmdsAccepted` of `Execute`. -/
def cmdsAccepted : Nat := wsvc.AcceptStop ||| wsvc.AcceptShutdown

/-- The labelled `for` loop of `Execute`, on the requests still to arrive on
`r`. -/
def Execute.loop (ws : windowsService) :
    List wsvc.ChangeRequest → Result windowsService (Bool × Nat)
  | [] => ⟨Outcome.blocked, ws, []⟩
  | c :: r =>
    if c.Cmd = wsvc.Interrogate then
      (Execute.loop ws r).after [Event.request c, Event.status c.CurrentStatus]
    else if c.Cmd = wsvc.Stop ∨ c.Cmd = wsvc.Shutdown then
      match ws.i with
      | none =>
        ⟨Outcome.panicked nilFuncPanic, ws,
          [Event.request c, Event.status ⟨wsvc.StopPending, 0, 0, 0⟩]⟩
      | some i =>
        match i.Stop () with
        | some err =>
          ⟨Outcome.ret (true, 2), ws.setError (some err),
            [Event.request c, Event.status ⟨wsvc.StopPending, 0, 0, 0⟩, Event.stop]⟩
        | none =>
          ⟨Outcome.ret (false, 0), ws,
            [Event.request c, Event.status ⟨wsvc.StopPending, 0, 0, 0⟩, Event.stop]⟩
    else
      (Execute.loop ws r).after [Event.request c]

/-- The method `windowsService.Execute`; `r` lists the requests that arrive on
the channel `r`, the sends on `changes` are the `Event.status` events. -/
def Execute (ws : windowsService) (_args : List String) (r : List wsvc.ChangeRequest) :
    Result windowsService (Bool × Nat) :=
  match ws.i with
  | none => ⟨Outcome.panicked nilFuncPanic, ws, [Event.status ⟨wsvc.StartPending, 0, 0, 0⟩]⟩
  | some i =>
    match i.Start () with
    | some err =>
      ⟨Outcome.ret (true, 1), ws.setError (some err),
        [Event.status ⟨wsvc.StartPending, 0, 0, 0⟩, Event.start]⟩
    | none =>
      (Execute.loop ws r).after
        [Event.status ⟨wsvc.StartPending, 0, 0, 0⟩, Event.start,
          Event.status ⟨wsvc.Running, cmdsAccepted, 0, 0⟩]

end windowsService

/-- A behaviour of the function held by the package variable `svcRun`
(`wsvc.Run`, or a test double): whether it calls the handler's `Execute`, and
then with which arguments and which requests on `r`, and the error it returns
in the end. -/
structure SvcRun where
  execute : Option (List String × List wsvc.ChangeRequest)
  err : Error

/-- The call `svcRun(name, handler)`. -/
def svcRun (b : SvcRun) (name : String) (handler : windowsService) :
    Result windowsService Error :=
  match b.execute with
  | none => ⟨Outcome.ret b.err, handler, [Event.svcRun name]⟩
  | some (args, r) =>
    let e := handler.Execute args r
    match e.out with
    | Outcome.ret _ => ⟨Outcome.ret b.err, e.st, Event.svcRun name :: e.trace⟩
    | Outcome.panicked msg => ⟨Outcome.panicked msg, e.st, Event.svcRun name :: e.trace⟩
    | Outcome.blocked => ⟨Outcome.blocked, e.st, Event.svcRun name :: e.trace⟩

/-- What the operating system answers in one Windows run. -/
structure Platform where
  /-- The two results of `svcIsAnInteractiveSession()`. -/
  svcIsAnInteractiveSession : Bool × Error
  /-- The result of `os.Chdir(filepath.Dir(os.Args[0]))`. -/
  chdir : Error
  /-- The behaviour of `svcRun`. -/
  svcRun : SvcRun

/-- The `for { sig := <-signalChan ... }` loop of `windowsService.run`, on the
signals still to be delivered. -/
def windowsService.loop (signalNotifier : Registry) (ws : windowsService) :
    List Signal → Result windowsService Error
  | [] => ⟨Outcome.blocked, ws, []⟩
  | sig :: signalChan =>
    match signalNotifier.lookup sig with
    | some (some n) =>
      (windowsService.loop signalNotifier ws signalChan).after
        [Event.signal sig, Event.receive n sig]
    | some none => ⟨Outcome.panicked nilFuncPanic, ws, [Event.signal sig]⟩
    | none =>
      match ws.signalMap.lookup sig with
      | some _ =>
        match ws.i with
        | none => ⟨Outcome.panicked nilFuncPanic, ws, [Event.signal sig]⟩
        | some i => ⟨Outcome.ret (i.Stop ()), ws, [Event.signal sig, Event.stop]⟩
      | none => (windowsService.loop signalNotifier ws signalChan).after [Event.signal sig]

/-- The method `windowsService.run`. -/
def windowsService.run (p : Platform) (signalNotifier : Registry) (signalChan : List Signal)
    (ws : windowsService) : Result windowsService Error :=
  let ws := ws.setError none
  if ws.IsWindowsService then
    let r := svcRun p.svcRun ws.Name ws
    match r.out with
    | Outcome.ret runErr =>
      let startStopErr := r.st.getError
      match startStopErr with
      | some e => ⟨Outcome.ret (some e), r.st, r.trace⟩
      | none =>
        match runErr with
        | some e => ⟨Outcome.ret (some e), r.st, r.trace⟩
        | none => ⟨Outcome.ret none, r.st, r.trace⟩
    | Outcome.panicked msg => ⟨Outcome.panicked msg, r.st, r.trace⟩
    | Outcome.blocked => ⟨Outcome.blocked, r.st, r.trace⟩
  else
    match ws.i with
    | none => ⟨Outcome.panicked nilFuncPanic, ws, []⟩
    | some i =>
      match i.Start () with
      | some err => ⟨Outcome.ret (some err), ws, [Event.start]⟩
      | none =>
        -- for sig := range signalNotifier { ws.signals = append(ws.signals, sig) }
        let ws : windowsService := { ws with signals := ws.signals ++ signalNotifier.keys }
        -- for _, sig := range ws.signals { ws.signalMap[sig] = struct{}{} }
        match fillSignalMap ws.signals ws.signalMap with
        | none => ⟨Outcome.panicked nilMapPanic, ws, [Event.start]⟩
        | some m =>
          let ws : windowsService := { ws with signalMap := m }
          (windowsService.loop signalNotifier ws signalChan).after
            [Event.start, Event.signalNotify ws.signals]

namespace Windows

/-- The function `Run` of svc_windows.go. The receiver state of the result is
the `windowsService` value, once it has been created. -/
def Run (p : Platform) (signalNotifier : Registry) (signalChan : List Signal)
    (service : Service) (sig : List Signal) : Result (Option windowsService) Error :=
  match p.svcIsAnInteractiveSession with
  | (_, some err) => ⟨Outcome.ret (some err), none, [Event.isAnInteractiveSession]⟩
  | (interactive, none) =>
    let sig := if sig.length = 0 then [SIGINT] else sig
    let ws : windowsService :=
      { i := some service, stopStartErr := none, isInteractive := interactive,
        signals := sig, signalMap := GoMap.mk [], Name := "" }
    let chdir : Error × List Event :=
      if ws.IsWindowsService then (p.chdir, [Event.chdir]) else (none, [])
    match chdir.1 with
    | some err => ⟨Outcome.ret (some err), some ws, Event.isAnInteractiveSession :: chdir.2⟩
    | none =>
      match service.Init ws.toEnvironment with
      | some err =>
        ⟨Outcome.ret (some err), some ws,
          Event.isAnInteractiveSession :: chdir.2 ++ [Event.init ws.toEnvironment]⟩
      | none =>
        let r := ws.run p signalNotifier signalChan
        ⟨r.out, some r.st,
          Event.isAnInteractiveSession :: chdir.2 ++ [Event.init ws.toEnvironment] ++ r.trace⟩

end Windows

/-- The statuses that `Execute` echoes for the Interrogate requests among `r`,
in order. -/
def echoes (r : List wsvc.ChangeRequest) : List wsvc.Status :=
  (r.filter (fun c => c.Cmd = wsvc.Interrogate)).map (fun c => c.CurrentStatus)

/-- The Environments handed to `service.Init`, in order. -/
def inits : List Event → List Environment
  | [] => []
  | Event.init env :: t => env :: inits t
  | _ :: t => inits t

/-- The statuses sent on `changes` without the echoes: a status sent right
after an Interrogate request was received is that request's echo and is left
out, every other status is kept. -/
def reported : List Event → List wsvc.Status
  | [] => []
  | Event.request c :: Event.status s :: t =>
    if c.Cmd = wsvc.Interrogate then reported t else s :: reported t
  | Event.status s :: t => s :: reported t
  | _ :: t => reported t

/-- The request stream `r` without the requests that `Execute` ignores: those
whose command is none of Interrogate, Stop and Shutdown. -/
def withoutIgnored (r : List wsvc.ChangeRequest) : List wsvc.ChangeRequest :=
  r.filter (fun c => c.Cmd = wsvc.Interrogate ∨ c.Cmd = wsvc.Stop ∨ c.Cmd = wsvc.Shutdown)

/-- The events that follow the first call of `Stop` in a trace; none when
`Stop` is not called. -/
def afterStop : List Event → List Event
  | [] => []
  | Event.stop :: t => t
  | _ :: t => afterStop t

/-! ## Concrete services used to exercise the theorems -/

/-- A service whose three methods all succeed. -/
def okService : Service := ⟨fun _ => none, fun _ => none, fun _ => none⟩

/-- A service whose `Init` fails. -/
def initFails : Service := ⟨fun _ => some "init failed", fun _ => none, fun _ => none⟩

/-- A service whose `Start` fails. -/
def startFails : Service := ⟨fun _ => none, fun _ => some "start failed", fun _ => none⟩

/-- A service whose `Stop` fails. -/
def stopFails : Service := ⟨fun _ => none, fun _ => none, fun _ => some "stop failed"⟩

/-- An interactive console session: the query succeeds and answers true. -/
def console : Platform := ⟨(true, none), none, ⟨none, none⟩⟩

/-- A session under the service control manager, whose runtime calls `Execute`
with the requests `r` and then returns `runErr`. -/
def managed (r : List wsvc.ChangeRequest) (runErr : Error) : Platform :=
  ⟨(false, none), none, ⟨some ([], r), runErr⟩⟩

/-- A session in which `svcIsAnInteractiveSession` fails. -/
def queryFails : Platform := ⟨(false, some "query failed"), none, ⟨none, none⟩⟩

/-- A session under the service control manager in which `os.Chdir` fails. -/
def chdirFails : Platform := ⟨(false, none), some "chdir failed", ⟨none, none⟩⟩

/-- The `windowsService` value that `Run` builds for `service` under the
service control manager when no signal is passed. -/
def serviceProcess (service : Service) : windowsService :=
  ⟨some service, none, false, [SIGINT], GoMap.mk [], ""⟩

/-- A request with command `cmd` whose current status is Running. -/
def request (cmd : wsvc.Cmd) : wsvc.ChangeRequest :=
  ⟨cmd, ⟨wsvc.Running, 5, 0, 0⟩⟩

/-! ## The registry (svc.go) -/

theorem GoMap.find_put_self {K V : Type} [DecidableEq K] (es : List (K × V)) (k : K) (v : V) :
    GoMap.find (GoMap.put es k v) k = some v := by
  induction es with
  | nil => simp [GoMap.put, GoMap.find]
  | cons p es ih =>
    obtain ⟨k', v'⟩ := p
    by_cases hk : k' = k
    · simp [GoMap.put, GoMap.find, hk]
    · simp [GoMap.put, GoMap.find, hk, ih]

theorem GoMap.find_put_other {K V : Type} [DecidableEq K] (es : List (K × V)) (k k' : K) (v : V)
    (hne : k' ≠ k) : GoMap.find (GoMap.put es k v) k' = GoMap.find es k' := by
  induction es with
  | nil =>
    have hne' : ¬ k = k' := fun h => hne h.symm
    simp [GoMap.put, GoMap.find, hne']
  | cons p es ih =>
    obtain ⟨k₀, v₀⟩ := p
    by_cases hk : k₀ = k
    · subst hk
      have hne' : ¬ k₀ = k' := fun h => hne h.symm
      simp [GoMap.put, GoMap.find, hne']
    · by_cases hk' : k₀ = k'
      · subst hk'
        simp [GoMap.put, GoMap.find, hne]
      · simp [GoMap.put, GoMap.find, hk, hk', ih]

theorem Notify_of_not_reserved (sig : Signal) (receive : SignalReceive) (signalNotifier : Registry)
    (hint : sig ≠ SIGINT) (hterm : sig ≠ SIGTERM) :
    Notify sig receive signalNotifier =
      (Outcome.ret none,
        GoMap.mk (GoMap.put (match signalNotifier with
          | GoMap.nil => []
          | GoMap.mk es => es) sig receive)) := by
  cases signalNotifier with
  | nil => simp [Notify, hint, hterm, GoMap.store]
  | mk es => simp [Notify, hint, hterm, GoMap.store]

/-- C1: for every handler and every registry state, `Notify` called with
`syscall.SIGINT` or with `syscall.SIGTERM` returns the non-nil error
"signal was reserved" and leaves `signalNotifier` exactly as it was (a nil
table stays nil, no key is added, removed or rebound). -/
theorem Notify_reserved_signal (receive : SignalReceive) (signalNotifier : Registry) :
    Notify SIGINT receive signalNotifier =
        (Outcome.ret (some "signal was reserved"), signalNotifier) ∧
      Notify SIGTERM receive signalNotifier =
        (Outcome.ret (some "signal was reserved"), signalNotifier) := by
  constructor <;> simp [Notify]

/-- C2: for every signal other than SIGINT and SIGTERM, every handler and every
registry state (the nil table included), `Notify` returns nil, the table is a
made map afterwards, looking the signal up in it yields the handler just
given (whatever was bound before), and every other key is bound as before. -/
theorem Notify_registers (sig : Signal) (receive : SignalReceive) (signalNotifier : Registry)
    (hint : sig ≠ SIGINT) (hterm : sig ≠ SIGTERM) :
    (Notify sig receive signalNotifier).1 = Outcome.ret none ∧
      (Notify sig receive signalNotifier).2 ≠ GoMap.nil ∧
      (Notify sig receive signalNotifier).2.lookup sig = some receive ∧
      ∀ k : Signal, k ≠ sig →
        (Notify sig receive signalNotifier).2.lookup k = signalNotifier.lookup k := by
  rw [Notify_of_not_reserved sig receive signalNotifier hint hterm]
  refine ⟨rfl, by simp, ?_, ?_⟩
  · simp [GoMap.lookup, GoMap.find_put_self]
  · intro k hk
    cases signalNotifier with
    | nil =>
      have hk' : ¬ sig = k := fun h => hk h.symm
      simp [GoMap.lookup, GoMap.put, GoMap.find, hk']
    | mk es => simp [GoMap.lookup, GoMap.find_put_other _ _ _ _ hk]

/-- Registering a handler for signal 1 (SIGHUP) in the nil table, and in a table
that already binds signals 10 and 1. -/
theorem Notify_registers_witness :
    ((Notify 1 (some 7) GoMap.nil).1 = Outcome.ret none ∧
      (Notify 1 (some 7) GoMap.nil).2 ≠ GoMap.nil ∧
      (Notify 1 (some 7) GoMap.nil).2.lookup 1 = some (some 7) ∧
      (Notify 1 (some 7) GoMap.nil).2.lookup 10 = (GoMap.nil : Registry).lookup 10) ∧
    ((Notify 1 (some 7) (GoMap.mk [(10, some 3), (1, some 4)])).1 = Outcome.ret none ∧
      (Notify 1 (some 7) (GoMap.mk [(10, some 3), (1, some 4)])).2 ≠ GoMap.nil ∧
      (Notify 1 (some 7) (GoMap.mk [(10, some 3), (1, some 4)])).2.lookup 1 = some (some 7) ∧
      (Notify 1 (some 7) (GoMap.mk [(10, some 3), (1, some 4)])).2.lookup 10 =
        (GoMap.mk [(10, some 3), (1, some 4)] : Registry).lookup 10) ∧
    (Notify 1 (some 7) (GoMap.mk [(10, some 3), (1, some 4)])).2 =
      GoMap.mk [(10, some 3), (1, some 7)] :=
  ⟨⟨(Notify_registers 1 (some 7) GoMap.nil (by decide) (by decide)).1,
      (Notify_registers 1 (some 7) GoMap.nil (by decide) (by decide)).2.1,
      (Notify_registers 1 (some 7) GoMap.nil (by decide) (by decide)).2.2.1,
      (Notify_registers 1 (some 7) GoMap.nil (by decide) (by decide)).2.2.2 10 (by decide)⟩,
    ⟨(Notify_registers 1 (some 7) (GoMap.mk [(10, some 3), (1, some 4)])
        (by decide) (by decide)).1,
      (Notify_registers 1 (some 7) (GoMap.mk [(10, some 3), (1, some 4)])
        (by decide) (by decide)).2.1,
      (Notify_registers 1 (some 7) (GoMap.mk [(10, some 3), (1, some 4)])
        (by decide) (by decide)).2.2.1,
      (Notify_registers 1 (some 7) (GoMap.mk [(10, some 3), (1, some 4)])
        (by decide) (by decide)).2.2.2 10 (by decide)⟩,
    by decide⟩

/-! ## Init and Start failures (both runners) -/

/-- C3: in both variants of `Run`, when `service.Init` returns a non-nil error
`e` (on Windows: the interactive-session query succeeded, and so did the change
of working directory where one is made), `Run` returns exactly `e` and neither
`Start` nor `Stop` is called. -/
theorem Run_init_error (service : Service) (sig : List Signal) (signalNotifier : Registry)
    (signalChan : List Signal) (e : String) :
    (service.Init environment = some e →
      (Other.Run signalNotifier signalChan service sig).out = Outcome.ret (some e) ∧
        Event.start ∉ (Other.Run signalNotifier signalChan service sig).trace ∧
        Event.stop ∉ (Other.Run signalNotifier signalChan service sig).trace) ∧
    (∀ (p : Platform) (interactive : Bool),
      p.svcIsAnInteractiveSession = (interactive, none) →
      (interactive = false → p.chdir = none) →
      service.Init ⟨!interactive⟩ = some e →
      (Windows.Run p signalNotifier signalChan service sig).out = Outcome.ret (some e) ∧
        Event.start ∉ (Windows.Run p signalNotifier signalChan service sig).trace ∧
        Event.stop ∉ (Windows.Run p signalNotifier signalChan service sig).trace) := by
  constructor
  · intro hinit
    simp [Other.Run, hinit]
  · intro p interactive hq hdir hinit
    cases interactive with
    | true =>
      simp at hinit
      simp [Windows.Run, hq, windowsService.IsWindowsService, windowsService.toEnvironment,
        hinit]
    | false =>
      simp at hinit
      simp [Windows.Run, hq, windowsService.IsWindowsService, windowsService.toEnvironment,
        hinit, hdir rfl]

/-- A failing `Init` in the foreground runner, at the console and under the
service control manager. -/
theorem Run_init_error_witness :
    ((Other.Run GoMap.nil [SIGINT] initFails []).out = Outcome.ret (some "init failed") ∧
      Event.start ∉ (Other.Run GoMap.nil [SIGINT] initFails []).trace ∧
      Event.stop ∉ (Other.Run GoMap.nil [SIGINT] initFails []).trace) ∧
    ((Windows.Run console GoMap.nil [SIGINT] initFails []).out =
        Outcome.ret (some "init failed") ∧
      Event.start ∉ (Windows.Run console GoMap.nil [SIGINT] initFails []).trace ∧
      Event.stop ∉ (Windows.Run console GoMap.nil [SIGINT] initFails []).trace) ∧
    ((Windows.Run (managed [⟨wsvc.Stop, ⟨0, 0, 0, 0⟩⟩] none) GoMap.nil [] initFails []).out =
        Outcome.ret (some "init failed") ∧
      Event.start ∉
        (Windows.Run (managed [⟨wsvc.Stop, ⟨0, 0, 0, 0⟩⟩] none) GoMap.nil [] initFails []).trace ∧
      Event.stop ∉
        (Windows.Run (managed [⟨wsvc.Stop, ⟨0, 0, 0, 0⟩⟩] none) GoMap.nil [] initFails []).trace) :=
  ⟨(Run_init_error initFails [] GoMap.nil [SIGINT] "init failed").1 rfl,
    (Run_init_error initFails [] GoMap.nil [SIGINT] "init failed").2 console true rfl
      (by simp) rfl,
    (Run_init_error initFails [] GoMap.nil [] "init failed").2
      (managed [⟨wsvc.Stop, ⟨0, 0, 0, 0⟩⟩] none) false rfl (fun _ => rfl) rfl⟩

/-- C4: in the foreground `Run`, and in the Windows `Run` at an interactive
session, when `Init` succeeds and `service.Start` returns a non-nil error `e`,
`Run` returns exactly `e`, `Stop` is not called and `signalNotify` is not
called. -/
theorem Run_start_error (service : Service) (sig : List Signal) (signalNotifier : Registry)
    (signalChan : List Signal) (e : String) (hstart : service.Start () = some e) :
    (service.Init environment = none →
      (Other.Run signalNotifier signalChan service sig).out = Outcome.ret (some e) ∧
        Event.stop ∉ (Other.Run signalNotifier signalChan service sig).trace ∧
        subscriptions (Other.Run signalNotifier signalChan service sig).trace = []) ∧
    (∀ p : Platform,
      p.svcIsAnInteractiveSession = (true, none) →
      service.Init ⟨false⟩ = none →
      (Windows.Run p signalNotifier signalChan service sig).out = Outcome.ret (some e) ∧
        Event.stop ∉ (Windows.Run p signalNotifier signalChan service sig).trace ∧
        subscriptions (Windows.Run p signalNotifier signalChan service sig).trace = []) := by
  constructor
  · intro hinit
    simp [Other.Run, hinit, hstart, subscriptions]
  · intro p hq hinit
    simp [Windows.Run, hq, windowsService.IsWindowsService, windowsService.toEnvironment,
      hinit, windowsService.run, windowsService.setError, hstart, subscriptions]

/-- A failing `Start` in the foreground runner and at the console. -/
theorem Run_start_error_witness :
    ((Other.Run GoMap.nil [SIGINT] startFails []).out = Outcome.ret (some "start failed") ∧
      Event.stop ∉ (Other.Run GoMap.nil [SIGINT] startFails []).trace ∧
      subscriptions (Other.Run GoMap.nil [SIGINT] startFails []).trace = []) ∧
    ((Windows.Run console GoMap.nil [SIGINT] startFails []).out =
        Outcome.ret (some "start failed") ∧
      Event.stop ∉ (Windows.Run console GoMap.nil [SIGINT] startFails []).trace ∧
      subscriptions (Windows.Run console GoMap.nil [SIGINT] startFails []).trace = []) :=
  ⟨(Run_start_error startFails [] GoMap.nil [SIGINT] "start failed" rfl).1 rfl,
    (Run_start_error startFails [] GoMap.nil [SIGINT] "start failed" rfl).2 console rfl rfl⟩

/-! ## The foreground runner after a successful Start -/

theorem fillSignalMap_nil_cons (sig : Signal) (signals : List Signal) :
    fillSignalMap (sig :: signals) GoMap.nil = none := by
  simp [fillSignalMap, GoMap.store]

/-- Whatever the service, the signal list, the registry and the signals
delivered: once Init and Start have succeeded, the foreground `Run` ends in the
panic of a write to the nil `signalMap`, before `signalNotify` is reached. -/
theorem Other.Run_panics_after_start (service : Service) (sig : List Signal)
    (signalNotifier : Registry) (signalChan : List Signal)
    (hinit : service.Init environment = none) (hstart : service.Start () = none) :
    (Other.Run signalNotifier signalChan service sig).out = Outcome.panicked nilMapPanic ∧
      (Other.Run signalNotifier signalChan service sig).trace =
        [Event.init environment, Event.start] := by
  cases sig with
  | nil => simp [Other.Run, hinit, hstart, otherService.run, fillSignalMap_nil_cons]
  | cons s rest => simp [Other.Run, hinit, hstart, otherService.run, fillSignalMap_nil_cons]

/-- C5 (the code at the failing input): with a service whose methods all
succeed, no explicit signal list and an empty registry, the foreground `Run`
to which SIGINT is delivered panics on the write to its nil `signalMap` after
Init and Start; `Stop` is not called and nothing is returned. Were the map
made, the loop would still panic at `svr.service.Stop()`, the field `service`
being nil. -/
theorem Other_Run_default_sigint_panics :
    (Other.Run GoMap.nil [SIGINT] okService []).out = Outcome.panicked nilMapPanic ∧
      (Other.Run GoMap.nil [SIGINT] okService []).trace =
        [Event.init environment, Event.start] ∧
      (otherService.loop GoMap.nil
          ⟨none, [SIGINT, SIGTERM], GoMap.mk [(SIGINT, ()), (SIGTERM, ())]⟩ [SIGINT]).out =
        Outcome.panicked nilFuncPanic := by
  refine ⟨?_, ?_, ?_⟩ <;> decide

/-! ## The subscription of the interactive Windows runner -/

theorem GoMap.mem_keys_put {K V : Type} [DecidableEq K] (es : List (K × V)) (k s : K) (v : V) :
    s ∈ (GoMap.put es k v).map Prod.fst ↔ s = k ∨ s ∈ es.map Prod.fst := by
  induction es with
  | nil => simp [GoMap.put]
  | cons p es ih =>
    obtain ⟨k', v'⟩ := p
    by_cases hk : k' = k
    · subst hk
      simp [GoMap.put]
    · simp only [GoMap.put, hk, if_false, List.map_cons, List.mem_cons, ih]
      tauto

theorem GoMap.mem_keys_of_lookup {K V : Type} [DecidableEq K] (m : GoMap K V) (k : K) (v : V)
    (h : m.lookup k = some v) : k ∈ m.keys := by
  cases m with
  | nil => simp [GoMap.lookup] at h
  | mk es =>
    simp only [GoMap.lookup] at h
    simp only [GoMap.keys]
    induction es with
    | nil => simp [GoMap.find] at h
    | cons p es ih =>
      obtain ⟨k', v'⟩ := p
      by_cases hk : k' = k
      · simp [hk]
      · simp only [GoMap.find, hk, if_false] at h
        simp [ih h]

theorem fillSignalMap_mk (signals : List Signal) (es : List (Signal × Unit)) :
    ∃ es', fillSignalMap signals (GoMap.mk es) = some (GoMap.mk es') ∧
      ∀ s, s ∈ es'.map Prod.fst ↔ s ∈ signals ∨ s ∈ es.map Prod.fst := by
  induction signals generalizing es with
  | nil => exact ⟨es, by simp [fillSignalMap]⟩
  | cons sig signals ih =>
    obtain ⟨es', hfill, hmem⟩ := ih (GoMap.put es sig ())
    refine ⟨es', by simp [fillSignalMap, GoMap.store, hfill], ?_⟩
    intro s
    rw [hmem s, GoMap.mem_keys_put, List.mem_cons]
    tauto

theorem windowsService.loop_st (signalNotifier : Registry) (ws : windowsService)
    (signalChan : List Signal) : (windowsService.loop signalNotifier ws signalChan).st = ws := by
  induction signalChan with
  | nil => simp [windowsService.loop]
  | cons sig signalChan ih =>
    simp only [windowsService.loop]
    split
    · simpa [Result.after] using ih
    · rfl
    · split
      · split <;> rfl
      · simpa [Result.after] using ih

theorem windowsService.loop_subscriptions (signalNotifier : Registry) (ws : windowsService)
    (signalChan : List Signal) :
    subscriptions (windowsService.loop signalNotifier ws signalChan).trace = [] := by
  induction signalChan with
  | nil => simp [windowsService.loop, subscriptions]
  | cons sig signalChan ih =>
    simp only [windowsService.loop]
    split
    · simpa [Result.after, subscriptions] using ih
    · simp [subscriptions]
    · split
      · split <;> simp [subscriptions]
      · simpa [Result.after, subscriptions] using ih

/-- C7: in the Windows `Run` at an interactive session, once Init and Start
have succeeded and whatever signals are delivered, `signalNotify` is called
exactly once, with the explicit list `sig` (or with SIGINT alone when `sig` is
empty) followed by every key of `signalNotifier`; the keys of `signalMap` are
then exactly the signals of that list. So a signal bound in the registry is
subscribed even when it was not passed to `Run`. -/
theorem Windows_Run_subscribes (p : Platform) (service : Service) (sig : List Signal)
    (signalNotifier : Registry) (signalChan : List Signal)
    (hq : p.svcIsAnInteractiveSession = (true, none))
    (hinit : service.Init ⟨false⟩ = none) (hstart : service.Start () = none) :
    subscriptions (Windows.Run p signalNotifier signalChan service sig).trace =
        [(if sig.length = 0 then [SIGINT] else sig) ++ signalNotifier.keys] ∧
      (∃ ws : windowsService,
        (Windows.Run p signalNotifier signalChan service sig).st = some ws ∧
        ws.signals = (if sig.length = 0 then [SIGINT] else sig) ++ signalNotifier.keys ∧
        ∀ s : Signal, s ∈ ws.signalMap.keys ↔
          s ∈ (if sig.length = 0 then [SIGINT] else sig) ∨ s ∈ signalNotifier.keys) ∧
      ∀ (s : Signal) (receive : SignalReceive), signalNotifier.lookup s = some receive →
        s ∈ (if sig.length = 0 then [SIGINT] else sig) ++ signalNotifier.keys := by
  obtain ⟨es', hfill, hmem⟩ :=
    fillSignalMap_mk ((if sig.length = 0 then [SIGINT] else sig) ++ signalNotifier.keys) []
  simp only [List.length_eq_zero] at hfill
  refine ⟨?_, ?_, ?_⟩
  · simp [Windows.Run, hq, windowsService.IsWindowsService, windowsService.toEnvironment,
      hinit, windowsService.run, windowsService.setError, hstart, hfill, Result.after,
      subscriptions, windowsService.loop_subscriptions]
  · refine ⟨⟨some service, none, true,
      (if sig.length = 0 then [SIGINT] else sig) ++ signalNotifier.keys, GoMap.mk es', ""⟩,
      ?_, ?_, ?_⟩
    · simp [Windows.Run, hq, windowsService.IsWindowsService, windowsService.toEnvironment,
        hinit, windowsService.run, windowsService.setError, hstart, hfill, Result.after,
        windowsService.loop_st]
    · rfl
    · intro s
      simpa [GoMap.keys] using hmem s
  · intro s receive hs
    exact List.mem_append_right _ (GoMap.mem_keys_of_lookup signalNotifier s receive hs)

/-- At the console, with signal 1 registered through `Notify` and no signal
passed to `Run`: the subscription is SIGINT and signal 1. -/
theorem Windows_Run_subscribes_witness :
    subscriptions
        (Windows.Run console (Notify 1 (some 7) GoMap.nil).2 [SIGINT] okService []).trace =
      [(if ([] : List Signal).length = 0 then [SIGINT] else []) ++
        (Notify 1 (some 7) GoMap.nil).2.keys] ∧
    (∃ ws : windowsService,
      (Windows.Run console (Notify 1 (some 7) GoMap.nil).2 [SIGINT] okService []).st = some ws ∧
      ws.signals = (if ([] : List Signal).length = 0 then [SIGINT] else []) ++
        (Notify 1 (some 7) GoMap.nil).2.keys ∧
      ∀ s : Signal, s ∈ ws.signalMap.keys ↔
        s ∈ (if ([] : List Signal).length = 0 then [SIGINT] else []) ∨
          s ∈ (Notify 1 (some 7) GoMap.nil).2.keys) ∧
    (1 : Signal) ∈ (if ([] : List Signal).length = 0 then [SIGINT] else []) ++
      (Notify 1 (some 7) GoMap.nil).2.keys ∧
    subscriptions
        (Windows.Run console (Notify 1 (some 7) GoMap.nil).2 [SIGINT] okService []).trace =
      [[SIGINT, 1]] :=
  ⟨(Windows_Run_subscribes console okService [] (Notify 1 (some 7) GoMap.nil).2 [SIGINT]
      rfl rfl rfl).1,
    (Windows_Run_subscribes console okService [] (Notify 1 (some 7) GoMap.nil).2 [SIGINT]
      rfl rfl rfl).2.1,
    (Windows_Run_subscribes console okService [] (Notify 1 (some 7) GoMap.nil).2 [SIGINT]
      rfl rfl rfl).2.2 1 (some 7) (by decide),
    by decide⟩

/-! ## The control-manager callback -/

theorem windowsService.Execute_loop_until_stop (ws : windowsService) (service : Service)
    (pre post : List wsvc.ChangeRequest) (c : wsvc.ChangeRequest)
    (hi : ws.i = some service) (hstop : service.Stop () = none)
    (hpre : ∀ x ∈ pre, x.Cmd ≠ wsvc.Stop ∧ x.Cmd ≠ wsvc.Shutdown)
    (hc : c.Cmd = wsvc.Stop ∨ c.Cmd = wsvc.Shutdown) :
    (windowsService.Execute.loop ws (pre ++ c :: post)).out = Outcome.ret (false, 0) ∧
      statuses (windowsService.Execute.loop ws (pre ++ c :: post)).trace =
        echoes pre ++ [⟨wsvc.StopPending, 0, 0, 0⟩] ∧
      (windowsService.Execute.loop ws (pre ++ c :: post)).trace.count Event.start = 0 ∧
      (windowsService.Execute.loop ws (pre ++ c :: post)).trace.count Event.stop = 1 := by
  have hci : c.Cmd ≠ wsvc.Interrogate := by
    rcases hc with h | h <;> rw [h] <;> decide
  induction pre with
  | nil =>
    simp [windowsService.Execute.loop, hci, hc, hi, hstop, statuses, echoes]
  | cons x pre ih =>
    have hx := hpre x (List.mem_cons_self x pre)
    obtain ⟨h1, h2, h3, h4⟩ := ih (fun y hy => hpre y (List.mem_cons_of_mem x hy))
    by_cases hxi : x.Cmd = wsvc.Interrogate
    · simp [windowsService.Execute.loop, hxi, Result.after, statuses, echoes, h1, h3, h4]
      simpa [echoes] using h2
    · simp [windowsService.Execute.loop, hxi, hx.1, hx.2, Result.after, statuses, echoes,
        h1, h3, h4]
      simpa [echoes] using h2

/-- C8: for `Execute` on a service whose Start and Stop both succeed, and a
request stream in which a Stop or Shutdown request `c` comes after requests
`pre` that are neither: the statuses sent on `changes` are StartPending, then
Running with `Accepts = AcceptStop | AcceptShutdown`, then the echoes of the
Interrogate requests of `pre`, then StopPending; Start and Stop are each called
exactly once; and `Execute` returns `(false, 0)`. -/
theorem Execute_start_stop_sequence (ws : windowsService) (service : Service)
    (args : List String) (pre post : List wsvc.ChangeRequest) (c : wsvc.ChangeRequest)
    (hi : ws.i = some service)
    (hstart : service.Start () = none) (hstop : service.Stop () = none)
    (hpre : ∀ x ∈ pre, x.Cmd ≠ wsvc.Stop ∧ x.Cmd ≠ wsvc.Shutdown)
    (hc : c.Cmd = wsvc.Stop ∨ c.Cmd = wsvc.Shutdown) :
    statuses (ws.Execute args (pre ++ c :: post)).trace =
        [⟨wsvc.StartPending, 0, 0, 0⟩,
          ⟨wsvc.Running, wsvc.AcceptStop ||| wsvc.AcceptShutdown, 0, 0⟩] ++
        echoes pre ++ [⟨wsvc.StopPending, 0, 0, 0⟩] ∧
      (ws.Execute args (pre ++ c :: post)).trace.count Event.start = 1 ∧
      (ws.Execute args (pre ++ c :: post)).trace.count Event.stop = 1 ∧
      (ws.Execute args (pre ++ c :: post)).out = Outcome.ret (false, 0) := by
  obtain ⟨h1, h2, h3, h4⟩ :=
    windowsService.Execute_loop_until_stop ws service pre post c hi hstop hpre hc
  simp [windowsService.Execute, hi, hstart, Result.after, statuses, h1, h2, h3, h4,
    windowsService.cmdsAccepted]

/-- An Interrogate and a Pause request, then Stop, then a Shutdown that is no
longer read. -/
theorem Execute_start_stop_sequence_witness :
    statuses ((serviceProcess okService).Execute []
        ([request wsvc.Interrogate, request wsvc.Pause] ++
          request wsvc.Stop :: [request wsvc.Shutdown])).trace =
      [⟨wsvc.StartPending, 0, 0, 0⟩,
        ⟨wsvc.Running, wsvc.AcceptStop ||| wsvc.AcceptShutdown, 0, 0⟩] ++
      echoes [request wsvc.Interrogate, request wsvc.Pause] ++
      [⟨wsvc.StopPending, 0, 0, 0⟩] ∧
    ((serviceProcess okService).Execute []
        ([request wsvc.Interrogate, request wsvc.Pause] ++
          request wsvc.Stop :: [request wsvc.Shutdown])).trace.count Event.start = 1 ∧
    ((serviceProcess okService).Execute []
        ([request wsvc.Interrogate, request wsvc.Pause] ++
          request wsvc.Stop :: [request wsvc.Shutdown])).trace.count Event.stop = 1 ∧
    ((serviceProcess okService).Execute []
        ([request wsvc.Interrogate, request wsvc.Pause] ++
          request wsvc.Stop :: [request wsvc.Shutdown])).out = Outcome.ret (false, 0) :=
  Execute_start_stop_sequence (serviceProcess okService) okService []
    [request wsvc.Interrogate, request wsvc.Pause] [request wsvc.Shutdown]
    (request wsvc.Stop) rfl rfl rfl (by decide) (by decide)

/-- C9: for `Execute` on a service whose Start returns a non-nil error `e`: the
only status sent is StartPending, no request is read from `r`, Stop is not
called (the events are the StartPending status and the call of Start, nothing
else), `Execute` returns `(true, 1)`, and `getError()` returns `e` afterwards;
so the managed branch of `run()`, whose `svcRun` calls this `Execute`, returns
exactly `e`, whatever error `svcRun` itself returns, and so does `Run` under
the service control manager. -/
theorem Execute_start_error (ws : windowsService) (service : Service) (args : List String)
    (r : List wsvc.ChangeRequest) (e : String)
    (hi : ws.i = some service) (hstart : service.Start () = some e) :
    (ws.Execute args r).trace = [Event.status ⟨wsvc.StartPending, 0, 0, 0⟩, Event.start] ∧
      statuses (ws.Execute args r).trace = [⟨wsvc.StartPending, 0, 0, 0⟩] ∧
      (∀ c, Event.request c ∉ (ws.Execute args r).trace) ∧
      Event.stop ∉ (ws.Execute args r).trace ∧
      (ws.Execute args r).out = Outcome.ret (true, 1) ∧
      (ws.Execute args r).st.getError = some e ∧
      (∀ (p : Platform) (signalNotifier : Registry) (signalChan : List Signal),
        ws.isInteractive = false → p.svcRun.execute = some (args, r) →
        (ws.run p signalNotifier signalChan).out = Outcome.ret (some e)) ∧
      ∀ (p : Platform) (signalNotifier : Registry) (signalChan sig : List Signal),
        p.svcIsAnInteractiveSession = (false, none) → p.chdir = none →
        service.Init ⟨true⟩ = none → p.svcRun.execute = some (args, r) →
        (Windows.Run p signalNotifier signalChan service sig).out = Outcome.ret (some e) := by
  refine ⟨?_, ?_, ?_, ?_, ?_, ?_, ?_, ?_⟩
  · simp [windowsService.Execute, hi, hstart]
  · simp [windowsService.Execute, hi, hstart, statuses]
  · simp [windowsService.Execute, hi, hstart]
  · simp [windowsService.Execute, hi, hstart]
  · simp [windowsService.Execute, hi, hstart]
  · simp [windowsService.Execute, hi, hstart, windowsService.getError,
      windowsService.setError]
  · intro p signalNotifier signalChan hint hexec
    simp [windowsService.run, windowsService.IsWindowsService, windowsService.setError, hint,
      svcRun, hexec, windowsService.Execute, hi, hstart, windowsService.getError]
  · intro p signalNotifier signalChan sig hq hdir hinit hexec
    simp [Windows.Run, hq, hdir, windowsService.toEnvironment, hinit, windowsService.run,
      windowsService.IsWindowsService, windowsService.setError, svcRun, hexec,
      windowsService.Execute, hstart, windowsService.getError]

/-- A failing Start under the service control manager, with a Stop request
pending and a runtime that reports an error of its own. -/
theorem Execute_start_error_witness :
    ((serviceProcess startFails).Execute [] [request wsvc.Stop]).trace =
        [Event.status ⟨wsvc.StartPending, 0, 0, 0⟩, Event.start] ∧
      statuses ((serviceProcess startFails).Execute [] [request wsvc.Stop]).trace =
        [⟨wsvc.StartPending, 0, 0, 0⟩] ∧
      Event.request (request wsvc.Stop) ∉
        ((serviceProcess startFails).Execute [] [request wsvc.Stop]).trace ∧
      Event.stop ∉ ((serviceProcess startFails).Execute [] [request wsvc.Stop]).trace ∧
      ((serviceProcess startFails).Execute [] [request wsvc.Stop]).out = Outcome.ret (true, 1) ∧
      ((serviceProcess startFails).Execute [] [request wsvc.Stop]).st.getError =
        some "start failed" ∧
      ((serviceProcess startFails).run
          (managed [request wsvc.Stop] (some "runtime failed")) GoMap.nil []).out =
        Outcome.ret (some "start failed") ∧
      (Windows.Run (managed [request wsvc.Stop] (some "runtime failed")) GoMap.nil []
          startFails []).out =
        Outcome.ret (some "start failed") :=
  ⟨(Execute_start_error (serviceProcess startFails) startFails [] [request wsvc.Stop]
      "start failed" rfl rfl).1,
    (Execute_start_error (serviceProcess startFails) startFails [] [request wsvc.Stop]
      "start failed" rfl rfl).2.1,
    (Execute_start_error (serviceProcess startFails) startFails [] [request wsvc.Stop]
      "start failed" rfl rfl).2.2.1 (request wsvc.Stop),
    (Execute_start_error (serviceProcess startFails) startFails [] [request wsvc.Stop]
      "start failed" rfl rfl).2.2.2.1,
    (Execute_start_error (serviceProcess startFails) startFails [] [request wsvc.Stop]
      "start failed" rfl rfl).2.2.2.2.1,
    (Execute_start_error (serviceProcess startFails) startFails [] [request wsvc.Stop]
      "start failed" rfl rfl).2.2.2.2.2.1,
    (Execute_start_error (serviceProcess startFails) startFails [] [request wsvc.Stop]
      "start failed" rfl rfl).2.2.2.2.2.2.1
      (managed [request wsvc.Stop] (some "runtime failed")) GoMap.nil [] rfl rfl,
    (Execute_start_error (serviceProcess startFails) startFails [] [request wsvc.Stop]
      "start failed" rfl rfl).2.2.2.2.2.2.2
      (managed [request wsvc.Stop] (some "runtime failed")) GoMap.nil [] [] rfl rfl rfl rfl⟩

/-- C10: in the receive loop of `Execute`, an Interrogate request `c` is
followed by exactly one send on `changes`, of `c.CurrentStatus` as it came;
Stop is not called, the receiver (and so the recorded error) is not changed,
and the loop goes on with the requests that remain. -/
theorem Execute_interrogate_echo (ws : windowsService) (c : wsvc.ChangeRequest)
    (r : List wsvc.ChangeRequest) (hc : c.Cmd = wsvc.Interrogate) :
    windowsService.Execute.loop ws (c :: r) =
        (windowsService.Execute.loop ws r).after [Event.request c, Event.status c.CurrentStatus] ∧
      (windowsService.Execute.loop ws [c]).st = ws ∧
      statuses (windowsService.Execute.loop ws [c]).trace = [c.CurrentStatus] ∧
      Event.stop ∉ (windowsService.Execute.loop ws [c]).trace ∧
      (windowsService.Execute.loop ws [c]).out = Outcome.blocked := by
  simp [windowsService.Execute.loop, hc, Result.after, statuses]

/-- An Interrogate request carrying a status of its own, followed by Stop. -/
theorem Execute_interrogate_echo_witness :
    windowsService.Execute.loop (serviceProcess okService)
        (⟨wsvc.Interrogate, ⟨wsvc.StopPending, 1, 2, 3⟩⟩ :: [request wsvc.Stop]) =
      (windowsService.Execute.loop (serviceProcess okService) [request wsvc.Stop]).after
        [Event.request ⟨wsvc.Interrogate, ⟨wsvc.StopPending, 1, 2, 3⟩⟩,
          Event.status (wsvc.ChangeRequest.mk wsvc.Interrogate
            ⟨wsvc.StopPending, 1, 2, 3⟩).CurrentStatus] ∧
    (windowsService.Execute.loop (serviceProcess okService)
        [⟨wsvc.Interrogate, ⟨wsvc.StopPending, 1, 2, 3⟩⟩]).st = serviceProcess okService ∧
    statuses (windowsService.Execute.loop (serviceProcess okService)
        [⟨wsvc.Interrogate, ⟨wsvc.StopPending, 1, 2, 3⟩⟩]).trace =
      [(wsvc.ChangeRequest.mk wsvc.Interrogate ⟨wsvc.StopPending, 1, 2, 3⟩).CurrentStatus] ∧
    Event.stop ∉ (windowsService.Execute.loop (serviceProcess okService)
        [⟨wsvc.Interrogate, ⟨wsvc.StopPending, 1, 2, 3⟩⟩]).trace ∧
    (windowsService.Execute.loop (serviceProcess okService)
        [⟨wsvc.Interrogate, ⟨wsvc.StopPending, 1, 2, 3⟩⟩]).out = Outcome.blocked :=
  Execute_interrogate_echo (serviceProcess okService)
    ⟨wsvc.Interrogate, ⟨wsvc.StopPending, 1, 2, 3⟩⟩ [request wsvc.Stop] rfl

/-! ## The managed branch of run -/

/-- C11: in the managed branch of `windowsService.run`, when `svcRun` returns
`runErr`: if the callback recorded a Start/Stop error `e`, `run` returns `e`
(whatever `runErr` is); if it recorded none, `run` returns `runErr`; and `run`
returns nil exactly when no error was recorded and `runErr` is nil. -/
theorem run_managed_result (p : Platform) (ws : windowsService) (signalNotifier : Registry)
    (signalChan : List Signal) (runErr : Error)
    (hsvc : ws.isInteractive = false)
    (hrun : (svcRun p.svcRun ws.Name (ws.setError none)).out = Outcome.ret runErr) :
    (∀ e : String, (svcRun p.svcRun ws.Name (ws.setError none)).st.getError = some e →
        (ws.run p signalNotifier signalChan).out = Outcome.ret (some e)) ∧
      ((svcRun p.svcRun ws.Name (ws.setError none)).st.getError = none →
        (ws.run p signalNotifier signalChan).out = Outcome.ret runErr) ∧
      ((ws.run p signalNotifier signalChan).out = Outcome.ret none ↔
        (svcRun p.svcRun ws.Name (ws.setError none)).st.getError = none ∧ runErr = none) := by
  have hname : (ws.setError none).Name = ws.Name := rfl
  have hsvc' : (ws.setError none).IsWindowsService = true := by
    simp [windowsService.IsWindowsService, windowsService.setError, hsvc]
  refine ⟨?_, ?_, ?_⟩
  · intro e he
    simp only [windowsService.run, hsvc', hname, if_true, hrun, he]
  · intro he
    cases runErr with
    | none => simp only [windowsService.run, hsvc', hname, if_true, hrun, he]
    | some e' => simp only [windowsService.run, hsvc', hname, if_true, hrun, he]
  · cases hrec : (svcRun p.svcRun ws.Name (ws.setError none)).st.getError with
    | some e => simp [windowsService.run, hsvc', hname, hrun, hrec]
    | none =>
      cases runErr with
      | none => simp [windowsService.run, hsvc', hname, hrun, hrec]
      | some e' => simp [windowsService.run, hsvc', hname, hrun, hrec]

/-- Under the service control manager, with a runtime that returns the error
"runtime failed": a failing Start is returned in its place; with a service
that starts and stops the runtime's error is returned; and nil is returned when
the runtime returns nil as well. -/
theorem run_managed_result_witness :
    ((serviceProcess startFails).run
        (managed [request wsvc.Stop] (some "runtime failed")) GoMap.nil []).out =
      Outcome.ret (some "start failed") ∧
    ((serviceProcess okService).run
        (managed [request wsvc.Stop] (some "runtime failed")) GoMap.nil []).out =
      Outcome.ret (some "runtime failed") ∧
    (((serviceProcess okService).run
        (managed [request wsvc.Stop] none) GoMap.nil []).out = Outcome.ret none ↔
      (svcRun (managed [request wsvc.Stop] none).svcRun (serviceProcess okService).Name
        ((serviceProcess okService).setError none)).st.getError = none ∧
        (none : Error) = none) ∧
    ((serviceProcess okService).run
        (managed [request wsvc.Stop] none) GoMap.nil []).out = Outcome.ret none :=
  ⟨(run_managed_result (managed [request wsvc.Stop] (some "runtime failed"))
      (serviceProcess startFails) GoMap.nil [] (some "runtime failed") rfl rfl).1
      "start failed" rfl,
    (run_managed_result (managed [request wsvc.Stop] (some "runtime failed"))
      (serviceProcess okService) GoMap.nil [] (some "runtime failed") rfl rfl).2.1 rfl,
    (run_managed_result (managed [request wsvc.Stop] none)
      (serviceProcess okService) GoMap.nil [] none rfl rfl).2.2,
    by decide⟩

/-! ## Failure of the interactive-session query -/

/-- C13: in the Windows `Run`, when `svcIsAnInteractiveSession` returns a
non-nil error `e`, `Run` returns exactly `e`; the query is the only event, so
none of Init, Start and Stop is called. -/
theorem Windows_Run_query_error (p : Platform) (service : Service) (sig : List Signal)
    (signalNotifier : Registry) (signalChan : List Signal) (e : String)
    (hq : p.svcIsAnInteractiveSession.2 = some e) :
    (Windows.Run p signalNotifier signalChan service sig).out = Outcome.ret (some e) ∧
      (Windows.Run p signalNotifier signalChan service sig).trace =
        [Event.isAnInteractiveSession] ∧
      inits (Windows.Run p signalNotifier signalChan service sig).trace = [] ∧
      Event.start ∉ (Windows.Run p signalNotifier signalChan service sig).trace ∧
      Event.stop ∉ (Windows.Run p signalNotifier signalChan service sig).trace := by
  obtain ⟨q, chdir, run⟩ := p
  obtain ⟨interactive, err⟩ := q
  simp only at hq
  subst hq
  simp [Windows.Run, inits]

/-- A failing session query. -/
theorem Windows_Run_query_error_witness :
    (Windows.Run queryFails GoMap.nil [SIGINT] okService []).out =
        Outcome.ret (some "query failed") ∧
      (Windows.Run queryFails GoMap.nil [SIGINT] okService []).trace =
        [Event.isAnInteractiveSession] ∧
      inits (Windows.Run queryFails GoMap.nil [SIGINT] okService []).trace = [] ∧
      Event.start ∉ (Windows.Run queryFails GoMap.nil [SIGINT] okService []).trace ∧
      Event.stop ∉ (Windows.Run queryFails GoMap.nil [SIGINT] okService []).trace :=
  Windows_Run_query_error queryFails okService [] GoMap.nil [SIGINT] "query failed" rfl

/-! ## The Environment handed to Init -/

theorem inits_append (a b : List Event) : inits (a ++ b) = inits a ++ inits b := by
  induction a with
  | nil => simp [inits]
  | cons e a ih => cases e <;> simp [inits, ih]

theorem otherService_loop_inits (signalNotifier : Registry) (svr : otherService)
    (signalChan : List Signal) :
    inits (otherService.loop signalNotifier svr signalChan).trace = [] := by
  induction signalChan with
  | nil => simp [otherService.loop, inits]
  | cons sig signalChan ih =>
    simp only [otherService.loop]
    split
    · simpa [Result.after, inits] using ih
    · simp [inits]
    · split
      · split <;> simp [inits]
      · simpa [Result.after, inits] using ih

theorem otherService_run_inits (signalNotifier : Registry) (signalChan : List Signal)
    (svr : otherService) : inits (svr.run signalNotifier signalChan).trace = [] := by
  simp only [otherService.run]
  split
  · simp [inits]
  · simp [Result.after, inits, otherService_loop_inits]

theorem windowsService_loop_inits (signalNotifier : Registry) (ws : windowsService)
    (signalChan : List Signal) :
    inits (windowsService.loop signalNotifier ws signalChan).trace = [] := by
  induction signalChan with
  | nil => simp [windowsService.loop, inits]
  | cons sig signalChan ih =>
    simp only [windowsService.loop]
    split
    · simpa [Result.after, inits] using ih
    · simp [inits]
    · split
      · split <;> simp [inits]
      · simpa [Result.after, inits] using ih

theorem windowsService.Execute_loop_inits (ws : windowsService) (r : List wsvc.ChangeRequest) :
    inits (windowsService.Execute.loop ws r).trace = [] := by
  induction r with
  | nil => simp [windowsService.Execute.loop, inits]
  | cons c r ih =>
    simp only [windowsService.Execute.loop]
    split
    · simpa [Result.after, inits] using ih
    · split
      · split
        · simp [inits]
        · split <;> simp [inits]
      · simpa [Result.after, inits] using ih

theorem windowsService.Execute_inits (ws : windowsService) (args : List String)
    (r : List wsvc.ChangeRequest) : inits (ws.Execute args r).trace = [] := by
  simp only [windowsService.Execute]
  split
  · simp [inits]
  · split
    · simp [inits]
    · simp [Result.after, inits, windowsService.Execute_loop_inits]

theorem svcRun_inits (b : SvcRun) (name : String) (handler : windowsService) :
    inits (svcRun b name handler).trace = [] := by
  simp only [svcRun]
  split
  · simp [inits]
  · split <;> simp [inits, windowsService.Execute_inits]

theorem windowsService_run_inits (p : Platform) (signalNotifier : Registry)
    (signalChan : List Signal) (ws : windowsService) :
    inits (ws.run p signalNotifier signalChan).trace = [] := by
  simp only [windowsService.run]
  split
  · split
    · split
      · exact svcRun_inits _ _ _
      · split <;> exact svcRun_inits _ _ _
    · exact svcRun_inits _ _ _
    · exact svcRun_inits _ _ _
  · split
    · simp [inits]
    · split
      · simp [inits]
      · split
        · simp [inits]
        · simp [Result.after, inits, windowsService_loop_inits]

/-- C12 (as stated, refuted): in a Windows `Run` whose session query fails, and
in one under the service control manager whose change of working directory
fails, `Init` is not called at all, so it is not called exactly once. -/
theorem Windows_Run_init_not_called :
    inits (Windows.Run queryFails GoMap.nil [] okService []).trace = [] ∧
      (inits (Windows.Run queryFails GoMap.nil [] okService []).trace).length ≠ 1 ∧
      inits (Windows.Run chdirFails GoMap.nil [] okService []).trace = [] ∧
      (inits (Windows.Run chdirFails GoMap.nil [] okService []).trace).length ≠ 1 := by
  decide

/-- C12 (amended): in every foreground `Run`, `Init` is called exactly once, as
the first event, with an Environment whose `IsWindowsService()` is false. In
the Windows `Run`, when `svcIsAnInteractiveSession` returns `interactive`
without an error and the change of working directory (made only when not
interactive) succeeds, `Init` is called exactly once, with no call of Start
before it, with an Environment whose `IsWindowsService()` is true if and only
if `interactive` is false. When the query or the change of directory fails,
`Init` is not called. -/
theorem Run_init_environment (service : Service) (sig : List Signal)
    (signalNotifier : Registry) (signalChan : List Signal) :
    (environment.IsWindowsService = false ∧
      inits (Other.Run signalNotifier signalChan service sig).trace = [environment] ∧
      ∃ rest, (Other.Run signalNotifier signalChan service sig).trace =
        Event.init environment :: rest) ∧
    (∀ (p : Platform) (interactive : Bool),
      p.svcIsAnInteractiveSession = (interactive, none) →
      (interactive = false → p.chdir = none) →
      ((Environment.mk (!interactive)).IsWindowsService = true ↔ interactive = false) ∧
        inits (Windows.Run p signalNotifier signalChan service sig).trace =
          [Environment.mk (!interactive)] ∧
        ∃ pre rest, (Windows.Run p signalNotifier signalChan service sig).trace =
            pre ++ Event.init (Environment.mk (!interactive)) :: rest ∧
          Event.start ∉ pre) ∧
    (∀ p : Platform,
      (p.svcIsAnInteractiveSession.2 ≠ none ∨
        (p.svcIsAnInteractiveSession.1 = false ∧ p.chdir ≠ none)) →
      inits (Windows.Run p signalNotifier signalChan service sig).trace = []) := by
  refine ⟨⟨rfl, ?_, ?_⟩, ?_, ?_⟩
  · simp only [Other.Run]
    split
    · simp [inits]
    · split
      · simp [inits]
      · simp [inits, inits_append, otherService_run_inits]
  · simp only [Other.Run]
    split
    · exact ⟨_, rfl⟩
    · split
      · exact ⟨_, rfl⟩
      · exact ⟨_, rfl⟩
  · intro p interactive hq hdir
    refine ⟨by cases interactive <;> simp, ?_, ?_⟩
    · cases interactive with
      | true =>
        cases hinit : service.Init ⟨false⟩ with
        | some e =>
          simp [Windows.Run, hq, windowsService.IsWindowsService,
            windowsService.toEnvironment, hinit, inits]
        | none =>
          simp [Windows.Run, hq, windowsService.IsWindowsService,
            windowsService.toEnvironment, hinit, inits, inits_append,
            windowsService_run_inits]
      | false =>
        cases hinit : service.Init ⟨true⟩ with
        | some e =>
          simp [Windows.Run, hq, windowsService.IsWindowsService,
            windowsService.toEnvironment, hinit, inits, hdir rfl]
        | none =>
          simp [Windows.Run, hq, windowsService.IsWindowsService,
            windowsService.toEnvironment, hinit, inits, inits_append,
            windowsService_run_inits, hdir rfl]
    · cases interactive with
      | true =>
        refine ⟨[Event.isAnInteractiveSession], ?_⟩
        cases hinit : service.Init ⟨false⟩ with
        | some e =>
          simp [Windows.Run, hq, windowsService.IsWindowsService,
            windowsService.toEnvironment, hinit]
        | none =>
          simp [Windows.Run, hq, windowsService.IsWindowsService,
            windowsService.toEnvironment, hinit]
      | false =>
        refine ⟨[Event.isAnInteractiveSession, Event.chdir], ?_⟩
        cases hinit : service.Init ⟨true⟩ with
        | some e =>
          simp [Windows.Run, hq, windowsService.IsWindowsService,
            windowsService.toEnvironment, hinit, hdir rfl]
        | none =>
          simp [Windows.Run, hq, windowsService.IsWindowsService,
            windowsService.toEnvironment, hinit, hdir rfl]
  · intro p hp
    obtain ⟨q, chdir, run⟩ := p
    obtain ⟨interactive, err⟩ := q
    rcases hp with hp | ⟨hi, hp⟩
    · cases err with
      | none => exact absurd rfl hp
      | some e => simp [Windows.Run, inits]
    · simp only at hi hp
      subst hi
      cases err with
      | some e => simp [Windows.Run, inits]
      | none =>
        cases chdir with
        | none => exact absurd rfl hp
        | some e => simp [Windows.Run, windowsService.IsWindowsService, inits]

/-- The foreground runner, the console and the service control manager hand
Init one Environment each; a failing change of directory hands it none. -/
theorem Run_init_environment_witness :
    inits (Other.Run GoMap.nil [SIGINT] okService []).trace = [environment] ∧
    inits (Windows.Run console GoMap.nil [SIGINT] okService []).trace =
      [Environment.mk (!true)] ∧
    inits (Windows.Run (managed [request wsvc.Stop] none) GoMap.nil [] okService []).trace =
      [Environment.mk (!false)] ∧
    inits (Windows.Run chdirFails GoMap.nil [SIGINT] okService []).trace = [] :=
  ⟨(Run_init_environment okService [] GoMap.nil [SIGINT]).1.2.1,
    ((Run_init_environment okService [] GoMap.nil [SIGINT]).2.1 console true rfl
      (by simp)).2.1,
    ((Run_init_environment okService [] GoMap.nil []).2.1 (managed [request wsvc.Stop] none)
      false rfl (fun _ => rfl)).2.1,
    (Run_init_environment okService [] GoMap.nil [SIGINT]).2.2 chdirFails
      (Or.inr ⟨rfl, by decide⟩)⟩

/-! ## Stop is called at most once -/

theorem count_stop_of_afterStop (t : List Event) (h : afterStop t = []) :
    t.count Event.stop ≤ 1 := by
  induction t with
  | nil => simp
  | cons e t ih =>
    cases e <;> first
      | (simp only [afterStop] at h; subst h; simp)
      | (simp only [afterStop] at h; simpa using ih h)

theorem otherService_loop_afterStop (signalNotifier : Registry) (svr : otherService)
    (signalChan : List Signal) :
    afterStop (otherService.loop signalNotifier svr signalChan).trace = [] ∧
      (Event.stop ∈ (otherService.loop signalNotifier svr signalChan).trace →
        ∃ service, svr.service = some service ∧
          (otherService.loop signalNotifier svr signalChan).out =
            Outcome.ret (service.Stop ())) := by
  induction signalChan with
  | nil => simp [otherService.loop, afterStop]
  | cons sig signalChan ih =>
    simp only [otherService.loop]
    split
    · simpa [Result.after, afterStop] using ih
    · simp [afterStop]
    · split
      · split
        · simp [afterStop]
        · rename_i service hservice
          simp [afterStop, hservice]
      · simpa [Result.after, afterStop] using ih

theorem windowsService_loop_afterStop (signalNotifier : Registry) (ws : windowsService)
    (signalChan : List Signal) :
    afterStop (windowsService.loop signalNotifier ws signalChan).trace = [] ∧
      (Event.stop ∈ (windowsService.loop signalNotifier ws signalChan).trace →
        ∃ i, ws.i = some i ∧
          (windowsService.loop signalNotifier ws signalChan).out = Outcome.ret (i.Stop ())) := by
  induction signalChan with
  | nil => simp [windowsService.loop, afterStop]
  | cons sig signalChan ih =>
    simp only [windowsService.loop]
    split
    · simpa [Result.after, afterStop] using ih
    · simp [afterStop]
    · split
      · split
        · simp [afterStop]
        · rename_i i hi
          simp [afterStop, hi]
      · simpa [Result.after, afterStop] using ih

theorem windowsService.Execute_loop_afterStop (ws : windowsService)
    (r : List wsvc.ChangeRequest) :
    afterStop (windowsService.Execute.loop ws r).trace = [] := by
  induction r with
  | nil => simp [windowsService.Execute.loop, afterStop]
  | cons c r ih =>
    simp only [windowsService.Execute.loop]
    split
    · simpa [Result.after, afterStop] using ih
    · split
      · split
        · simp [afterStop]
        · split <;> simp [afterStop]
      · simpa [Result.after, afterStop] using ih

theorem windowsService.Execute_afterStop (ws : windowsService) (args : List String)
    (r : List wsvc.ChangeRequest) : afterStop (ws.Execute args r).trace = [] := by
  simp only [windowsService.Execute]
  split
  · simp [afterStop]
  · split
    · simp [afterStop]
    · simp [Result.after, afterStop, windowsService.Execute_loop_afterStop]

theorem svcRun_afterStop (b : SvcRun) (name : String) (handler : windowsService) :
    afterStop (svcRun b name handler).trace = [] := by
  simp only [svcRun]
  split
  · simp [afterStop]
  · split <;> simp [afterStop, windowsService.Execute_afterStop]

theorem windowsService_run_afterStop (p : Platform) (signalNotifier : Registry)
    (signalChan : List Signal) (ws : windowsService) :
    afterStop (ws.run p signalNotifier signalChan).trace = [] := by
  simp only [windowsService.run]
  split
  · split
    · split
      · exact svcRun_afterStop _ _ _
      · split <;> exact svcRun_afterStop _ _ _
    · exact svcRun_afterStop _ _ _
    · exact svcRun_afterStop _ _ _
  · split
    · simp [afterStop]
    · split
      · simp [afterStop]
      · split
        · simp [afterStop]
        · simp [Result.after, afterStop, (windowsService_loop_afterStop _ _ _).1]

theorem otherService_run_afterStop (signalNotifier : Registry) (signalChan : List Signal)
    (svr : otherService) : afterStop (svr.run signalNotifier signalChan).trace = [] := by
  simp only [otherService.run]
  split
  · simp [afterStop]
  · simp [Result.after, afterStop, (otherService_loop_afterStop _ _ _).1]

theorem Other_Run_afterStop (signalNotifier : Registry) (signalChan : List Signal)
    (service : Service) (sig : List Signal) :
    afterStop (Other.Run signalNotifier signalChan service sig).trace = [] := by
  simp only [Other.Run]
  split
  · simp [afterStop]
  · split
    · simp [afterStop]
    · simp [afterStop, otherService_run_afterStop]

theorem Windows_Run_afterStop (p : Platform) (signalNotifier : Registry)
    (signalChan : List Signal) (service : Service) (sig : List Signal) :
    afterStop (Windows.Run p signalNotifier signalChan service sig).trace = [] := by
  obtain ⟨q, chdir, run⟩ := p
  obtain ⟨interactive, err⟩ := q
  cases err with
  | some e => simp [Windows.Run, afterStop]
  | none =>
    cases interactive with
    | true =>
      cases hinit : service.Init ⟨false⟩ with
      | some e =>
        simp [Windows.Run, windowsService.IsWindowsService, windowsService.toEnvironment,
          hinit, afterStop]
      | none =>
        simp [Windows.Run, windowsService.IsWindowsService, windowsService.toEnvironment,
          hinit, afterStop, windowsService_run_afterStop]
    | false =>
      cases chdir with
      | some e =>
        simp [Windows.Run, windowsService.IsWindowsService, afterStop]
      | none =>
        cases hinit : service.Init ⟨true⟩ with
        | some e =>
          simp [Windows.Run, windowsService.IsWindowsService, windowsService.toEnvironment,
            hinit, afterStop]
        | none =>
          simp [Windows.Run, windowsService.IsWindowsService, windowsService.toEnvironment,
            hinit, afterStop, windowsService_run_afterStop]

/-- C14: whatever the service, the requests and the signals delivered, one run
calls `Stop` at most once and does nothing after that call. This holds for
`Execute` (whatever requests follow the first Stop or Shutdown), for the
dispatch loop of either runner, which returns the result of its one `Stop`
call as soon as it is made, and for both `Run` functions as a whole. -/
theorem stop_at_most_once (ws : windowsService) (svr : otherService) (p : Platform)
    (service : Service) (args : List String) (r : List wsvc.ChangeRequest)
    (signalNotifier : Registry) (signalChan sig : List Signal) :
    ((ws.Execute args r).trace.count Event.stop ≤ 1 ∧
      afterStop (ws.Execute args r).trace = []) ∧
    ((windowsService.loop signalNotifier ws signalChan).trace.count Event.stop ≤ 1 ∧
      afterStop (windowsService.loop signalNotifier ws signalChan).trace = [] ∧
      (Event.stop ∈ (windowsService.loop signalNotifier ws signalChan).trace →
        ∃ i, ws.i = some i ∧
          (windowsService.loop signalNotifier ws signalChan).out = Outcome.ret (i.Stop ()))) ∧
    ((otherService.loop signalNotifier svr signalChan).trace.count Event.stop ≤ 1 ∧
      afterStop (otherService.loop signalNotifier svr signalChan).trace = [] ∧
      (Event.stop ∈ (otherService.loop signalNotifier svr signalChan).trace →
        ∃ service, svr.service = some service ∧
          (otherService.loop signalNotifier svr signalChan).out =
            Outcome.ret (service.Stop ()))) ∧
    ((Windows.Run p signalNotifier signalChan service sig).trace.count Event.stop ≤ 1 ∧
      afterStop (Windows.Run p signalNotifier signalChan service sig).trace = []) ∧
    ((Other.Run signalNotifier signalChan service sig).trace.count Event.stop ≤ 1 ∧
      afterStop (Other.Run signalNotifier signalChan service sig).trace = []) := by
  refine ⟨⟨?_, ?_⟩, ⟨?_, ?_, ?_⟩, ⟨?_, ?_, ?_⟩, ⟨?_, ?_⟩, ⟨?_, ?_⟩⟩
  · exact count_stop_of_afterStop _ (windowsService.Execute_afterStop ws args r)
  · exact windowsService.Execute_afterStop ws args r
  · exact count_stop_of_afterStop _ (windowsService_loop_afterStop signalNotifier ws signalChan).1
  · exact (windowsService_loop_afterStop signalNotifier ws signalChan).1
  · exact (windowsService_loop_afterStop signalNotifier ws signalChan).2
  · exact count_stop_of_afterStop _ (otherService_loop_afterStop signalNotifier svr signalChan).1
  · exact (otherService_loop_afterStop signalNotifier svr signalChan).1
  · exact (otherService_loop_afterStop signalNotifier svr signalChan).2
  · exact count_stop_of_afterStop _ (Windows_Run_afterStop p signalNotifier signalChan service sig)
  · exact Windows_Run_afterStop p signalNotifier signalChan service sig
  · exact count_stop_of_afterStop _ (Other_Run_afterStop signalNotifier signalChan service sig)
  · exact Other_Run_afterStop signalNotifier signalChan service sig

/-- Two Stop requests and a Shutdown in the callback, and SIGINT delivered
three times at the console: `Stop` is called once each time. -/
theorem stop_at_most_once_witness :
    (((serviceProcess okService).Execute []
        [request wsvc.Stop, request wsvc.Stop, request wsvc.Shutdown]).trace.count Event.stop ≤ 1 ∧
      afterStop ((serviceProcess okService).Execute []
        [request wsvc.Stop, request wsvc.Stop, request wsvc.Shutdown]).trace = []) ∧
    ((Windows.Run console GoMap.nil [SIGINT, SIGINT, SIGINT] okService []).trace.count
        Event.stop ≤ 1 ∧
      afterStop (Windows.Run console GoMap.nil [SIGINT, SIGINT, SIGINT] okService []).trace =
        []) ∧
    ((serviceProcess okService).Execute []
        [request wsvc.Stop, request wsvc.Stop, request wsvc.Shutdown]).trace.count Event.stop = 1 ∧
    (Windows.Run console GoMap.nil [SIGINT, SIGINT, SIGINT] okService []).trace.count
        Event.stop = 1 :=
  ⟨(stop_at_most_once (serviceProcess okService) ⟨none, [], GoMap.nil⟩ console okService []
      [request wsvc.Stop, request wsvc.Stop, request wsvc.Shutdown] GoMap.nil
      [SIGINT, SIGINT, SIGINT] []).1,
    (stop_at_most_once (serviceProcess okService) ⟨none, [], GoMap.nil⟩ console okService []
      [request wsvc.Stop, request wsvc.Stop, request wsvc.Shutdown] GoMap.nil
      [SIGINT, SIGINT, SIGINT] []).2.2.2.1,
    by decide, by decide⟩

/-! ## A failing Stop in the callback -/

theorem windowsService.Execute_loop_stop_step (ws : windowsService) (service : Service)
    (pre post : List wsvc.ChangeRequest) (c : wsvc.ChangeRequest)
    (hi : ws.i = some service)
    (hpre : ∀ x ∈ pre, x.Cmd ≠ wsvc.Stop ∧ x.Cmd ≠ wsvc.Shutdown)
    (hc : c.Cmd = wsvc.Stop ∨ c.Cmd = wsvc.Shutdown) :
    (∃ before, (windowsService.Execute.loop ws (pre ++ c :: post)).trace =
        before ++ [Event.request c, Event.status ⟨wsvc.StopPending, 0, 0, 0⟩, Event.stop] ∧
      Event.stop ∉ before ∧ Event.start ∉ before) ∧
    (∀ e, service.Stop () = some e →
      (windowsService.Execute.loop ws (pre ++ c :: post)).out = Outcome.ret (true, 2) ∧
      (windowsService.Execute.loop ws (pre ++ c :: post)).st = ws.setError (some e)) := by
  have hci : c.Cmd ≠ wsvc.Interrogate := by
    rcases hc with h | h <;> rw [h] <;> decide
  induction pre with
  | nil =>
    constructor
    · refine ⟨[], ?_, by simp, by simp⟩
      cases hstop : service.Stop () <;>
        simp [windowsService.Execute.loop, hci, hc, hi, hstop]
    · intro e hstop
      simp [windowsService.Execute.loop, hci, hc, hi, hstop]
  | cons x pre ih =>
    have hx := hpre x (List.mem_cons_self x pre)
    obtain ⟨⟨before, htrace, hnostop, hnostart⟩, hfail⟩ :=
      ih (fun y hy => hpre y (List.mem_cons_of_mem x hy))
    by_cases hxi : x.Cmd = wsvc.Interrogate
    · constructor
      · refine ⟨Event.request x :: Event.status x.CurrentStatus :: before, ?_, ?_, ?_⟩
        · simp [windowsService.Execute.loop, hxi, Result.after, htrace]
        · simp [hnostop]
        · simp [hnostart]
      · intro e hstop
        simpa [windowsService.Execute.loop, hxi, Result.after] using hfail e hstop
    · constructor
      · refine ⟨Event.request x :: before, ?_, ?_, ?_⟩
        · simp [windowsService.Execute.loop, hxi, hx.1, hx.2, Result.after, htrace]
        · simp [hnostop]
        · simp [hnostart]
      · intro e hstop
        simpa [windowsService.Execute.loop, hxi, hx.1, hx.2, Result.after] using hfail e hstop

theorem windowsService.Execute_of_started (ws : windowsService) (service : Service)
    (args : List String) (r : List wsvc.ChangeRequest)
    (hi : ws.i = some service) (hstart : service.Start () = none) :
    ws.Execute args r =
      (windowsService.Execute.loop ws r).after
        [Event.status ⟨wsvc.StartPending, 0, 0, 0⟩, Event.start,
          Event.status ⟨wsvc.Running, windowsService.cmdsAccepted, 0, 0⟩] := by
  simp only [windowsService.Execute, hi, hstart]

theorem windowsService.run_managed_recorded (p : Platform) (ws : windowsService)
    (signalNotifier : Registry) (signalChan : List Signal) (args : List String)
    (r : List wsvc.ChangeRequest) (v : Bool × Nat) (e : String)
    (hsvc : ws.isInteractive = false) (hexec : p.svcRun.execute = some (args, r))
    (hout : ((ws.setError none).Execute args r).out = Outcome.ret v)
    (hrec : ((ws.setError none).Execute args r).st.getError = some e) :
    (ws.run p signalNotifier signalChan).out = Outcome.ret (some e) := by
  have hsvc' : (ws.setError none).IsWindowsService = true := by
    simp [windowsService.IsWindowsService, windowsService.setError, hsvc]
  simp only [windowsService.run, hsvc', if_true, svcRun, hexec, hout, hrec]

/-- C15: for `Execute` on a service whose Start succeeds, at the first Stop or
Shutdown request `c` the StopPending status is sent and then `Stop` is called
(these are the last events, and `Stop` was not called before). When `Stop`
returns a non-nil error `e`, `getError()` returns `e` afterwards, `Execute`
returns `(true, 2)`, a failure with a non-zero exit code, and the managed
`run()` whose `svcRun` calls this `Execute` returns exactly `e`. -/
theorem Execute_stop_error (ws : windowsService) (service : Service) (args : List String)
    (pre post : List wsvc.ChangeRequest) (c : wsvc.ChangeRequest)
    (hi : ws.i = some service) (hstart : service.Start () = none)
    (hpre : ∀ x ∈ pre, x.Cmd ≠ wsvc.Stop ∧ x.Cmd ≠ wsvc.Shutdown)
    (hc : c.Cmd = wsvc.Stop ∨ c.Cmd = wsvc.Shutdown) :
    (∃ before, (ws.Execute args (pre ++ c :: post)).trace =
        before ++ [Event.request c, Event.status ⟨wsvc.StopPending, 0, 0, 0⟩, Event.stop] ∧
      Event.stop ∉ before) ∧
    (∀ e, service.Stop () = some e →
      (ws.Execute args (pre ++ c :: post)).st.getError = some e ∧
      (ws.Execute args (pre ++ c :: post)).out = Outcome.ret (true, 2) ∧
      ∀ (p : Platform) (signalNotifier : Registry) (signalChan : List Signal),
        ws.isInteractive = false → p.svcRun.execute = some (args, pre ++ c :: post) →
        (ws.run p signalNotifier signalChan).out = Outcome.ret (some e)) := by
  obtain ⟨⟨before, htrace, hnostop, _⟩, hfail⟩ :=
    windowsService.Execute_loop_stop_step ws service pre post c hi hpre hc
  constructor
  · refine ⟨Event.status ⟨wsvc.StartPending, 0, 0, 0⟩ :: Event.start ::
      Event.status ⟨wsvc.Running, windowsService.cmdsAccepted, 0, 0⟩ :: before, ?_, ?_⟩
    · simp [windowsService.Execute, hi, hstart, Result.after, htrace]
    · simp [hnostop]
  · intro e hstop
    obtain ⟨hout, hst⟩ := hfail e hstop
    refine ⟨?_, ?_, ?_⟩
    · simp [windowsService.Execute, hi, hstart, Result.after, hst, windowsService.getError,
        windowsService.setError]
    · simp [windowsService.Execute, hi, hstart, Result.after, hout]
    · intro p signalNotifier signalChan hsvc hexec
      obtain ⟨hout', hst'⟩ :=
        (windowsService.Execute_loop_stop_step (ws.setError none) service pre post c hi
          hpre hc).2 e hstop
      apply windowsService.run_managed_recorded p ws signalNotifier signalChan args
        (pre ++ c :: post) (true, 2) e hsvc hexec
      · rw [windowsService.Execute_of_started (ws.setError none) service args _ hi hstart]
        exact hout'
      · rw [windowsService.Execute_of_started (ws.setError none) service args _ hi hstart]
        simp only [Result.after, hst']
        rfl

/-- An Interrogate request, then Shutdown, on a service whose Stop fails, under
a runtime that reports an error of its own. -/
theorem Execute_stop_error_witness :
    (∃ before, ((serviceProcess stopFails).Execute []
          ([request wsvc.Interrogate] ++ request wsvc.Shutdown :: [request wsvc.Stop])).trace =
        before ++ [Event.request (request wsvc.Shutdown),
          Event.status ⟨wsvc.StopPending, 0, 0, 0⟩, Event.stop] ∧
      Event.stop ∉ before) ∧
    ((serviceProcess stopFails).Execute []
        ([request wsvc.Interrogate] ++ request wsvc.Shutdown :: [request wsvc.Stop])).st.getError =
      some "stop failed" ∧
    ((serviceProcess stopFails).Execute []
        ([request wsvc.Interrogate] ++ request wsvc.Shutdown :: [request wsvc.Stop])).out =
      Outcome.ret (true, 2) ∧
    ((serviceProcess stopFails).run
        (managed ([request wsvc.Interrogate] ++ request wsvc.Shutdown :: [request wsvc.Stop])
          (some "runtime failed")) GoMap.nil []).out =
      Outcome.ret (some "stop failed") :=
  ⟨(Execute_stop_error (serviceProcess stopFails) stopFails [] [request wsvc.Interrogate]
      [request wsvc.Stop] (request wsvc.Shutdown) rfl rfl (by decide) (by decide)).1,
    ((Execute_stop_error (serviceProcess stopFails) stopFails [] [request wsvc.Interrogate]
      [request wsvc.Stop] (request wsvc.Shutdown) rfl rfl (by decide) (by decide)).2
      "stop failed" rfl).1,
    ((Execute_stop_error (serviceProcess stopFails) stopFails [] [request wsvc.Interrogate]
      [request wsvc.Stop] (request wsvc.Shutdown) rfl rfl (by decide) (by decide)).2
      "stop failed" rfl).2.1,
    ((Execute_stop_error (serviceProcess stopFails) stopFails [] [request wsvc.Interrogate]
      [request wsvc.Stop] (request wsvc.Shutdown) rfl rfl (by decide) (by decide)).2
      "stop failed" rfl).2.2
      (managed ([request wsvc.Interrogate] ++ request wsvc.Shutdown :: [request wsvc.Stop])
        (some "runtime failed")) GoMap.nil [] rfl rfl⟩

/-! ## The order of the reported states -/

theorem windowsService.Execute_loop_trace_head (ws : windowsService)
    (r : List wsvc.ChangeRequest) :
    (windowsService.Execute.loop ws r).trace = [] ∨
      ∃ c t, (windowsService.Execute.loop ws r).trace = Event.request c :: t := by
  cases r with
  | nil => simp [windowsService.Execute.loop]
  | cons c r =>
    right
    simp only [windowsService.Execute.loop]
    split
    · exact ⟨c, _, rfl⟩
    · split
      · split
        · exact ⟨c, _, rfl⟩
        · split <;> exact ⟨c, _, rfl⟩
      · exact ⟨c, _, rfl⟩

theorem reported_request_cons (c : wsvc.ChangeRequest) (t : List Event)
    (ht : t = [] ∨ ∃ c' t', t = Event.request c' :: t') :
    reported (Event.request c :: t) = reported t := by
  rcases ht with ht | ⟨c', t', ht⟩
  · subst ht
    simp [reported]
  · subst ht
    simp [reported]

theorem windowsService.Execute_loop_reported (ws : windowsService)
    (r : List wsvc.ChangeRequest) :
    reported (windowsService.Execute.loop ws r).trace = [] ∨
      reported (windowsService.Execute.loop ws r).trace = [⟨wsvc.StopPending, 0, 0, 0⟩] := by
  induction r with
  | nil => simp [windowsService.Execute.loop, reported]
  | cons c r ih =>
    simp only [windowsService.Execute.loop]
    split
    · rename_i hc
      simpa [Result.after, reported, hc] using ih
    · rename_i hc
      split
      · right
        split
        · simp [reported, hc]
        · split <;> simp [reported, hc]
      · simp only [Result.after, List.singleton_append]
        rw [reported_request_cons c _ (windowsService.Execute_loop_trace_head ws r)]
        exact ih

/-- C16: for every receiver and every request stream, the statuses that
`Execute` sends, the echoes of Interrogate requests left out, are StartPending
alone, or StartPending then Running, or StartPending, Running and StopPending:
a beginning of that sequence, nothing twice or out of order; and Running is
among them only when Start was called and succeeded. -/
theorem Execute_reported_states (ws : windowsService) (args : List String)
    (r : List wsvc.ChangeRequest) :
    reported (ws.Execute args r).trace <+:
        [⟨wsvc.StartPending, 0, 0, 0⟩,
          ⟨wsvc.Running, wsvc.AcceptStop ||| wsvc.AcceptShutdown, 0, 0⟩,
          ⟨wsvc.StopPending, 0, 0, 0⟩] ∧
      (reported (ws.Execute args r).trace = [⟨wsvc.StartPending, 0, 0, 0⟩] ∨
        reported (ws.Execute args r).trace =
          [⟨wsvc.StartPending, 0, 0, 0⟩,
            ⟨wsvc.Running, wsvc.AcceptStop ||| wsvc.AcceptShutdown, 0, 0⟩] ∨
        reported (ws.Execute args r).trace =
          [⟨wsvc.StartPending, 0, 0, 0⟩,
            ⟨wsvc.Running, wsvc.AcceptStop ||| wsvc.AcceptShutdown, 0, 0⟩,
            ⟨wsvc.StopPending, 0, 0, 0⟩]) ∧
      ((⟨wsvc.Running, wsvc.AcceptStop ||| wsvc.AcceptShutdown, 0, 0⟩ : wsvc.Status) ∈
          reported (ws.Execute args r).trace →
        Event.start ∈ (ws.Execute args r).trace ∧
          ∃ service, ws.i = some service ∧ service.Start () = none) := by
  have hshape :
      (reported (ws.Execute args r).trace = [⟨wsvc.StartPending, 0, 0, 0⟩] ∧
        ¬ ∃ service, ws.i = some service ∧ service.Start () = none) ∨
      ((reported (ws.Execute args r).trace =
          [⟨wsvc.StartPending, 0, 0, 0⟩,
            ⟨wsvc.Running, wsvc.AcceptStop ||| wsvc.AcceptShutdown, 0, 0⟩] ∨
        reported (ws.Execute args r).trace =
          [⟨wsvc.StartPending, 0, 0, 0⟩,
            ⟨wsvc.Running, wsvc.AcceptStop ||| wsvc.AcceptShutdown, 0, 0⟩,
            ⟨wsvc.StopPending, 0, 0, 0⟩]) ∧
        Event.start ∈ (ws.Execute args r).trace ∧
        ∃ service, ws.i = some service ∧ service.Start () = none) := by
    cases hi : ws.i with
    | none =>
      left
      simp [windowsService.Execute, hi, reported]
    | some service =>
      cases hstart : service.Start () with
      | some e =>
        left
        simp [windowsService.Execute, hi, hstart, reported]
      | none =>
        right
        refine ⟨?_, ?_, service, rfl, hstart⟩
        · rw [windowsService.Execute_of_started ws service args r hi hstart]
          rcases windowsService.Execute_loop_reported ws r with h | h
          · left
            simp [Result.after, reported, h, windowsService.cmdsAccepted]
          · right
            simp [Result.after, reported, h, windowsService.cmdsAccepted]
        · rw [windowsService.Execute_of_started ws service args r hi hstart]
          simp [Result.after]
  rcases hshape with ⟨h, hno⟩ | ⟨h | h, hstarted, hok⟩
  · refine ⟨?_, Or.inl h, ?_⟩
    · rw [h]
      exact ⟨_, rfl⟩
    · rw [h]
      intro hmem
      simp [wsvc.StartPending, wsvc.Running] at hmem
  · refine ⟨?_, Or.inr (Or.inl h), fun _ => ⟨hstarted, hok⟩⟩
    rw [h]
    exact ⟨_, rfl⟩
  · refine ⟨?_, Or.inr (Or.inr h), fun _ => ⟨hstarted, hok⟩⟩
    rw [h]

/-- Two Interrogate requests whose echoes are StopPending and StartPending,
a Pause request, then Shutdown: all the statuses sent are out of order, the
reported ones are not. -/
theorem Execute_reported_states_witness :
    reported ((serviceProcess okService).Execute []
        [⟨wsvc.Interrogate, ⟨wsvc.StopPending, 0, 0, 0⟩⟩, request wsvc.Pause,
          ⟨wsvc.Interrogate, ⟨wsvc.StartPending, 0, 0, 0⟩⟩, request wsvc.Shutdown]).trace <+:
      [⟨wsvc.StartPending, 0, 0, 0⟩,
        ⟨wsvc.Running, wsvc.AcceptStop ||| wsvc.AcceptShutdown, 0, 0⟩,
        ⟨wsvc.StopPending, 0, 0, 0⟩] ∧
    reported ((serviceProcess okService).Execute []
        [⟨wsvc.Interrogate, ⟨wsvc.StopPending, 0, 0, 0⟩⟩, request wsvc.Pause,
          ⟨wsvc.Interrogate, ⟨wsvc.StartPending, 0, 0, 0⟩⟩, request wsvc.Shutdown]).trace =
      [⟨wsvc.StartPending, 0, 0, 0⟩, ⟨wsvc.Running, 5, 0, 0⟩, ⟨wsvc.StopPending, 0, 0, 0⟩] ∧
    statuses ((serviceProcess okService).Execute []
        [⟨wsvc.Interrogate, ⟨wsvc.StopPending, 0, 0, 0⟩⟩, request wsvc.Pause,
          ⟨wsvc.Interrogate, ⟨wsvc.StartPending, 0, 0, 0⟩⟩, request wsvc.Shutdown]).trace =
      [⟨wsvc.StartPending, 0, 0, 0⟩, ⟨wsvc.Running, 5, 0, 0⟩, ⟨wsvc.StopPending, 0, 0, 0⟩,
        ⟨wsvc.StartPending, 0, 0, 0⟩, ⟨wsvc.StopPending, 0, 0, 0⟩] ∧
    reported ((serviceProcess startFails).Execute [] [request wsvc.Interrogate]).trace =
      [⟨wsvc.StartPending, 0, 0, 0⟩] :=
  ⟨(Execute_reported_states (serviceProcess okService) []
      [⟨wsvc.Interrogate, ⟨wsvc.StopPending, 0, 0, 0⟩⟩, request wsvc.Pause,
        ⟨wsvc.Interrogate, ⟨wsvc.StartPending, 0, 0, 0⟩⟩, request wsvc.Shutdown]).1,
    by decide, by decide, by decide⟩

/-! ## Ignored requests -/

theorem windowsService.Execute_loop_withoutIgnored (ws : windowsService)
    (r : List wsvc.ChangeRequest) :
    (windowsService.Execute.loop ws (withoutIgnored r)).out =
        (windowsService.Execute.loop ws r).out ∧
      (windowsService.Execute.loop ws (withoutIgnored r)).st =
        (windowsService.Execute.loop ws r).st ∧
      statuses (windowsService.Execute.loop ws (withoutIgnored r)).trace =
        statuses (windowsService.Execute.loop ws r).trace ∧
      (windowsService.Execute.loop ws (withoutIgnored r)).trace.count Event.start =
        (windowsService.Execute.loop ws r).trace.count Event.start ∧
      (windowsService.Execute.loop ws (withoutIgnored r)).trace.count Event.stop =
        (windowsService.Execute.loop ws r).trace.count Event.stop := by
  induction r with
  | nil => simp [withoutIgnored]
  | cons c r ih =>
    obtain ⟨h1, h2, h3, h4, h5⟩ := ih
    by_cases hci : c.Cmd = wsvc.Interrogate
    · have hkeep : withoutIgnored (c :: r) = c :: withoutIgnored r := by
        simp [withoutIgnored, hci]
      rw [hkeep]
      simp [windowsService.Execute.loop, hci, Result.after, statuses, h1, h2, h3, h4, h5]
    · by_cases hcs : c.Cmd = wsvc.Stop ∨ c.Cmd = wsvc.Shutdown
      · have hkeep : withoutIgnored (c :: r) = c :: withoutIgnored r := by
          simp [withoutIgnored, hcs]
        rw [hkeep]
        simp [windowsService.Execute.loop, hci, hcs]
      · have hdrop : withoutIgnored (c :: r) = withoutIgnored r := by
          simp [withoutIgnored, hci, hcs]
        rw [hdrop]
        simp [windowsService.Execute.loop, hci, hcs, Result.after, statuses, h1, h2, h3, h4,
          h5]

/-- C17: in the receive loop of `Execute`, a request `c` whose command is none
of Interrogate, Stop and Shutdown is only received: no status is sent, neither
Start nor Stop is called, the receiver (and so the recorded error) is not
changed, and the loop goes on with the requests that remain. So `Execute` on
any request stream and `Execute` on that stream without its ignored requests
return the same, record the same error, send the same statuses and call Start
and Stop as often. -/
theorem Execute_ignores_other_commands (ws : windowsService) (args : List String)
    (c : wsvc.ChangeRequest) (r : List wsvc.ChangeRequest)
    (hi : c.Cmd ≠ wsvc.Interrogate) (hs : c.Cmd ≠ wsvc.Stop) (hd : c.Cmd ≠ wsvc.Shutdown) :
    windowsService.Execute.loop ws (c :: r) =
        (windowsService.Execute.loop ws r).after [Event.request c] ∧
      (∀ r' : List wsvc.ChangeRequest,
        (ws.Execute args (withoutIgnored r')).out = (ws.Execute args r').out ∧
        (ws.Execute args (withoutIgnored r')).st.getError = (ws.Execute args r').st.getError ∧
        statuses (ws.Execute args (withoutIgnored r')).trace =
          statuses (ws.Execute args r').trace ∧
        (ws.Execute args (withoutIgnored r')).trace.count Event.start =
          (ws.Execute args r').trace.count Event.start ∧
        (ws.Execute args (withoutIgnored r')).trace.count Event.stop =
          (ws.Execute args r').trace.count Event.stop) ∧
      withoutIgnored (c :: r) = withoutIgnored r := by
  refine ⟨?_, ?_, ?_⟩
  · simp [windowsService.Execute.loop, hi, hs, hd]
  · intro r'
    obtain ⟨h1, h2, h3, h4, h5⟩ := windowsService.Execute_loop_withoutIgnored ws r'
    cases hws : ws.i with
    | none => simp [windowsService.Execute, hws]
    | some service =>
      cases hstart : service.Start () with
      | some e => simp [windowsService.Execute, hws, hstart]
      | none =>
        simp [windowsService.Execute, hws, hstart, Result.after, statuses, h1, h2, h3, h4, h5]
  · simp [withoutIgnored, hi, hs, hd]

/-- A Pause and a Continue request around an Interrogate, before Stop. -/
theorem Execute_ignores_other_commands_witness :
    windowsService.Execute.loop (serviceProcess okService)
        (request wsvc.Pause :: [request wsvc.Stop]) =
      (windowsService.Execute.loop (serviceProcess okService) [request wsvc.Stop]).after
        [Event.request (request wsvc.Pause)] ∧
    ((serviceProcess okService).Execute []
        (withoutIgnored [request wsvc.Pause, request wsvc.Interrogate, request wsvc.Continue,
          request wsvc.Stop])).out =
      ((serviceProcess okService).Execute []
        [request wsvc.Pause, request wsvc.Interrogate, request wsvc.Continue,
          request wsvc.Stop]).out ∧
    statuses ((serviceProcess okService).Execute []
        (withoutIgnored [request wsvc.Pause, request wsvc.Interrogate, request wsvc.Continue,
          request wsvc.Stop])).trace =
      statuses ((serviceProcess okService).Execute []
        [request wsvc.Pause, request wsvc.Interrogate, request wsvc.Continue,
          request wsvc.Stop]).trace ∧
    withoutIgnored [request wsvc.Pause, request wsvc.Interrogate, request wsvc.Continue,
        request wsvc.Stop] =
      [request wsvc.Interrogate, request wsvc.Stop] :=
  ⟨(Execute_ignores_other_commands (serviceProcess okService) [] (request wsvc.Pause)
      [request wsvc.Stop] (by decide) (by decide) (by decide)).1,
    ((Execute_ignores_other_commands (serviceProcess okService) [] (request wsvc.Pause)
      [request wsvc.Stop] (by decide) (by decide) (by decide)).2.1
      [request wsvc.Pause, request wsvc.Interrogate, request wsvc.Continue,
        request wsvc.Stop]).1,
    ((Execute_ignores_other_commands (serviceProcess okService) [] (request wsvc.Pause)
      [request wsvc.Stop] (by decide) (by decide) (by decide)).2.1
      [request wsvc.Pause, request wsvc.Interrogate, request wsvc.Continue,
        request wsvc.Stop]).2.2.1,
    by decide⟩

/-! ## Shutdown signals at the console -/

theorem GoMap.find_of_mem_keys {K V : Type} [DecidableEq K] (es : List (K × V)) (k : K)
    (h : k ∈ es.map Prod.fst) : ∃ v, GoMap.find es k = some v := by
  induction es with
  | nil => simp at h
  | cons p es ih =>
    obtain ⟨k', v'⟩ := p
    by_cases hk : k' = k
    · exact ⟨v', by simp [GoMap.find, hk]⟩
    · have hmem : k ∈ es.map Prod.fst := by
        simp only [List.map_cons, List.mem_cons] at h
        rcases h with h | h
        · exact absurd h.symm hk
        · exact h
      obtain ⟨v, hv⟩ := ih hmem
      exact ⟨v, by simp [GoMap.find, hk, hv]⟩

theorem GoMap.find_of_not_mem_keys {K V : Type} [DecidableEq K] (es : List (K × V)) (k : K)
    (h : k ∉ es.map Prod.fst) : GoMap.find es k = none := by
  induction es with
  | nil => simp [GoMap.find]
  | cons p es ih =>
    obtain ⟨k', v'⟩ := p
    simp only [List.map_cons, List.mem_cons, not_or] at h
    have hk : ¬ k' = k := fun hk => h.1 hk.symm
    simp [GoMap.find, hk, ih h.2]

theorem windowsService.loop_until_shutdown (signalNotifier : Registry) (ws : windowsService)
    (service : Service) (pre post : List Signal) (s : Signal)
    (hi : ws.i = some service)
    (hpre : ∀ x ∈ pre, (∃ n, signalNotifier.lookup x = some (some n)) ∨
      (signalNotifier.lookup x = none ∧ ws.signalMap.lookup x = none))
    (hs : signalNotifier.lookup s = none) (hmap : ∃ u, ws.signalMap.lookup s = some u) :
    (windowsService.loop signalNotifier ws (pre ++ s :: post)).out =
        Outcome.ret (service.Stop ()) ∧
      (windowsService.loop signalNotifier ws (pre ++ s :: post)).trace.count Event.stop = 1 := by
  obtain ⟨u, hu⟩ := hmap
  induction pre with
  | nil => simp [windowsService.loop, hs, hu, hi]
  | cons x pre ih =>
    obtain ⟨h1, h2⟩ := ih (fun y hy => hpre y (List.mem_cons_of_mem x hy))
    rcases hpre x (List.mem_cons_self x pre) with ⟨n, hn⟩ | ⟨hn, hm⟩
    · simp [windowsService.loop, hn, Result.after, h1, h2]
    · simp [windowsService.loop, hn, hm, Result.after, h1, h2]

/-- C18: in the Windows `Run` at an interactive session, once Init and Start
have succeeded: when the signals `pre` delivered first are each handled by a
registered function or are in neither the registry nor the shutdown set, and
then a signal `s` arrives that is in the shutdown set (the explicit list
`sig`, or SIGINT alone when `sig` is empty) and has no registered handler,
`Stop` is called exactly once and `Run` returns exactly what `Stop` returned,
whatever is delivered after `s`. -/
theorem Windows_Run_shutdown_signal (p : Platform) (service : Service) (sig : List Signal)
    (signalNotifier : Registry) (pre post : List Signal) (s : Signal)
    (hq : p.svcIsAnInteractiveSession = (true, none))
    (hinit : service.Init ⟨false⟩ = none) (hstart : service.Start () = none)
    (hs : s ∈ (if sig.length = 0 then [SIGINT] else sig))
    (hnone : signalNotifier.lookup s = none)
    (hpre : ∀ x ∈ pre, (∃ n, signalNotifier.lookup x = some (some n)) ∨
      (signalNotifier.lookup x = none ∧ x ∉ (if sig.length = 0 then [SIGINT] else sig))) :
    (Windows.Run p signalNotifier (pre ++ s :: post) service sig).out =
        Outcome.ret (service.Stop ()) ∧
      (Windows.Run p signalNotifier (pre ++ s :: post) service sig).trace.count Event.stop =
        1 := by
  obtain ⟨es', hfill, hmem⟩ :=
    fillSignalMap_mk ((if sig.length = 0 then [SIGINT] else sig) ++ signalNotifier.keys) []
  have hloop := windowsService.loop_until_shutdown signalNotifier
    ⟨some service, none, true,
      (if sig.length = 0 then [SIGINT] else sig) ++ signalNotifier.keys, GoMap.mk es', ""⟩
    service pre post s rfl
    (by
      intro x hx
      rcases hpre x hx with h | ⟨h1, h2⟩
      · exact Or.inl h
      · refine Or.inr ⟨h1, ?_⟩
        apply GoMap.find_of_not_mem_keys
        rw [hmem x]
        simp only [List.mem_append, List.map_nil, List.not_mem_nil, or_false, not_or]
        refine ⟨h2, fun hk => ?_⟩
        cases hreg : signalNotifier with
        | nil => simp [hreg, GoMap.keys] at hk
        | mk es =>
          rw [hreg] at hk h1
          obtain ⟨v, hv⟩ := GoMap.find_of_mem_keys es x hk
          simp [GoMap.lookup, hv] at h1)
    hnone
    (by
      apply GoMap.find_of_mem_keys
      rw [hmem s]
      exact Or.inl (List.mem_append_left _ hs))
  simp only [List.length_eq_zero] at hfill hloop
  obtain ⟨h1, h2⟩ := hloop
  constructor
  · simp [Windows.Run, hq, windowsService.IsWindowsService, windowsService.toEnvironment,
      hinit, windowsService.run, windowsService.setError, hstart, hfill, Result.after, h1]
  · simp [Windows.Run, hq, windowsService.IsWindowsService, windowsService.toEnvironment,
      hinit, windowsService.run, windowsService.setError, hstart, hfill, Result.after, h2]

/-- At the console with signal 1 registered and no signal passed to `Run`:
signal 1 is handled twice, signal 3 is in no set, then SIGINT stops the service
whose Stop fails; the SIGINT that follows is not read. -/
theorem Windows_Run_shutdown_signal_witness :
    (Windows.Run console (Notify 1 (some 7) GoMap.nil).2 ([1, 3, 1] ++ SIGINT :: [SIGINT])
        stopFails []).out = Outcome.ret (stopFails.Stop ()) ∧
      (Windows.Run console (Notify 1 (some 7) GoMap.nil).2 ([1, 3, 1] ++ SIGINT :: [SIGINT])
        stopFails []).trace.count Event.stop = 1 :=
  Windows_Run_shutdown_signal console stopFails [] (Notify 1 (some 7) GoMap.nil).2 [1, 3, 1]
    [SIGINT] SIGINT rfl rfl rfl (by decide) (by decide)
    (by
      intro x hx
      simp only [List.mem_cons, List.mem_singleton, List.not_mem_nil, or_false] at hx
      rcases hx with rfl | rfl | rfl
      · exact Or.inl ⟨7, by decide⟩
      · exact Or.inr (by decide)
      · exact Or.inl ⟨7, by decide⟩)

/-! ## The signal map of the foreground runner -/

/-- C19 (the code at the failing input): in the foreground `Run` with a service
whose methods all succeed, the explicit signal list SIGTERM and signal 1
registered, the `otherService` value is created with a nil `signalMap` and
`run` writes to it as it is: the call ends in the panic of a write to a nil
map, `signalNotify` is not reached, and the map is still nil. -/
theorem Other_Run_signalMap_never_made :
    (Other.Run (Notify 1 (some 7) GoMap.nil).2 [SIGTERM] okService [SIGTERM]).out =
        Outcome.panicked nilMapPanic ∧
      subscriptions
          (Other.Run (Notify 1 (some 7) GoMap.nil).2 [SIGTERM] okService [SIGTERM]).trace =
        [] ∧
      (Other.Run (Notify 1 (some 7) GoMap.nil).2 [SIGTERM] okService [SIGTERM]).st.map
          (fun svr => svr.signalMap) = some GoMap.nil ∧
      (otherService.run (Notify 1 (some 7) GoMap.nil).2 [SIGTERM]
          ⟨none, [SIGTERM], GoMap.nil⟩).out = Outcome.panicked nilMapPanic := by
  decide

/-! ## Registered handlers in the dispatch loop -/

theorem windowsService_loop_alive (signalNotifier : Registry) (ws : windowsService)
    (pre rest : List Signal)
    (hpre : ∀ x ∈ pre, (∃ m, signalNotifier.lookup x = some (some m)) ∨
      (signalNotifier.lookup x = none ∧ ws.signalMap.lookup x = none)) :
    (windowsService.loop signalNotifier ws pre).out = Outcome.blocked ∧
      Event.stop ∉ (windowsService.loop signalNotifier ws pre).trace ∧
      (windowsService.loop signalNotifier ws (pre ++ rest)).out =
        (windowsService.loop signalNotifier ws rest).out ∧
      (windowsService.loop signalNotifier ws (pre ++ rest)).st =
        (windowsService.loop signalNotifier ws rest).st ∧
      (windowsService.loop signalNotifier ws (pre ++ rest)).trace =
        (windowsService.loop signalNotifier ws pre).trace ++
          (windowsService.loop signalNotifier ws rest).trace := by
  induction pre with
  | nil => simp [windowsService.loop]
  | cons x pre ih =>
    obtain ⟨h1, h2, h3, h4, h5⟩ := ih (fun y hy => hpre y (List.mem_cons_of_mem x hy))
    rcases hpre x (List.mem_cons_self x pre) with ⟨m, hm⟩ | ⟨hn, hmap⟩
    · simp [windowsService.loop, hm, Result.after, h1, h2, h3, h4, h5]
    · simp [windowsService.loop, hn, hmap, Result.after, h1, h2, h3, h4, h5]

theorem Windows_Run_interactive (p : Platform) (service : Service) (sig : List Signal)
    (signalNotifier : Registry)
    (hq : p.svcIsAnInteractiveSession = (true, none))
    (hinit : service.Init ⟨false⟩ = none) (hstart : service.Start () = none) :
    ∃ ws : windowsService,
      (∀ x, signalNotifier.lookup x = none → x ∉ (if sig.length = 0 then [SIGINT] else sig) →
        ws.signalMap.lookup x = none) ∧
      ∀ signalChan : List Signal,
        (Windows.Run p signalNotifier signalChan service sig).out =
          (windowsService.loop signalNotifier ws signalChan).out ∧
        (Windows.Run p signalNotifier signalChan service sig).trace =
          [Event.isAnInteractiveSession, Event.init ⟨false⟩, Event.start,
            Event.signalNotify ws.signals] ++
          (windowsService.loop signalNotifier ws signalChan).trace := by
  obtain ⟨es', hfill, hmem⟩ :=
    fillSignalMap_mk ((if sig.length = 0 then [SIGINT] else sig) ++ signalNotifier.keys) []
  refine ⟨⟨some service, none, true,
    (if sig.length = 0 then [SIGINT] else sig) ++ signalNotifier.keys, GoMap.mk es', ""⟩,
    ?_, ?_⟩
  · intro x h1 h2
    apply GoMap.find_of_not_mem_keys
    rw [hmem x]
    simp only [List.mem_append, List.map_nil, List.not_mem_nil, or_false, not_or]
    refine ⟨h2, fun hk => ?_⟩
    cases hreg : signalNotifier with
    | nil => simp [hreg, GoMap.keys] at hk
    | mk es =>
      rw [hreg] at hk h1
      obtain ⟨v, hv⟩ := GoMap.find_of_mem_keys es x hk
      simp [GoMap.lookup, hv] at h1
  · intro signalChan
    simp only [List.length_eq_zero] at hfill
    constructor
    · simp [Windows.Run, hq, windowsService.IsWindowsService, windowsService.toEnvironment,
        hinit, windowsService.run, windowsService.setError, hstart, hfill, Result.after]
    · simp [Windows.Run, hq, windowsService.IsWindowsService, windowsService.toEnvironment,
        hinit, windowsService.run, windowsService.setError, hstart, hfill, Result.after]

/-- C6 (as stated, refuted): with signal 1 registered through `Notify` for the
function 7, the foreground `Run` to which signal 1 is delivered ends in the
panic of the nil-map write after Start and never calls the function. And
`Notify` accepts the nil func as handler of signal 1; at the console the
Windows `Run` then panics when signal 1 is delivered, and the SIGINT that
follows is not received. -/
theorem registered_handler_not_invoked :
    ((Notify 1 (some 7) GoMap.nil).1 = Outcome.ret none ∧
      (Other.Run (Notify 1 (some 7) GoMap.nil).2 [1, SIGINT] okService []).out =
        Outcome.panicked nilMapPanic ∧
      (Other.Run (Notify 1 (some 7) GoMap.nil).2 [1, SIGINT] okService []).trace =
        [Event.init environment, Event.start] ∧
      Event.receive 7 1 ∉
        (Other.Run (Notify 1 (some 7) GoMap.nil).2 [1, SIGINT] okService []).trace) ∧
    ((Notify 1 none GoMap.nil).1 = Outcome.ret none ∧
      (Notify 1 none GoMap.nil).2.lookup 1 = some none ∧
      (Windows.Run console (Notify 1 none GoMap.nil).2 [1, SIGINT] okService []).out =
        Outcome.panicked nilFuncPanic ∧
      (Windows.Run console (Notify 1 none GoMap.nil).2 [1, SIGINT] okService []).trace =
        [Event.isAnInteractiveSession, Event.init ⟨false⟩, Event.start,
          Event.signalNotify [SIGINT, 1], Event.signal 1]) := by
  decide

/-- C6 (amended): in the Windows `Run` at an interactive session, once Init and
Start have succeeded, let the registry bind the signal `s` to the non-nil
function `n` (as `Notify` leaves it for a signal that is not reserved),
whether or not `s` is in the explicit list `sig`. When the signals `pre`
delivered first are each handled by a registered function or are in neither
the registry nor the shutdown set, the loop is then waiting and `Stop` has not
been called; a delivery of `s` is received and followed by exactly one call
`n(s)`, after which the loop is waiting again; and with further signals `post`
the run goes on exactly as it does on `post` without that delivery. -/
theorem Windows_Run_dispatches_handler (p : Platform) (service : Service)
    (sig : List Signal) (signalNotifier : Registry) (pre post : List Signal) (s : Signal)
    (n : Nat)
    (hq : p.svcIsAnInteractiveSession = (true, none))
    (hinit : service.Init ⟨false⟩ = none) (hstart : service.Start () = none)
    (hreg : signalNotifier.lookup s = some (some n))
    (hpre : ∀ x ∈ pre, (∃ m, signalNotifier.lookup x = some (some m)) ∨
      (signalNotifier.lookup x = none ∧ x ∉ (if sig.length = 0 then [SIGINT] else sig))) :
    (Windows.Run p signalNotifier pre service sig).out = Outcome.blocked ∧
      Event.stop ∉ (Windows.Run p signalNotifier pre service sig).trace ∧
      (Windows.Run p signalNotifier (pre ++ [s]) service sig).out = Outcome.blocked ∧
      (Windows.Run p signalNotifier (pre ++ [s]) service sig).trace =
        (Windows.Run p signalNotifier pre service sig).trace ++
          [Event.signal s, Event.receive n s] ∧
      (Windows.Run p signalNotifier (pre ++ s :: post) service sig).out =
        (Windows.Run p signalNotifier (pre ++ post) service sig).out ∧
      ∃ b, (Windows.Run p signalNotifier (pre ++ s :: post) service sig).trace =
          (Windows.Run p signalNotifier pre service sig).trace ++
            Event.signal s :: Event.receive n s :: b ∧
        (Windows.Run p signalNotifier (pre ++ post) service sig).trace =
          (Windows.Run p signalNotifier pre service sig).trace ++ b := by
  obtain ⟨ws, hmap, hrun⟩ :=
    Windows_Run_interactive p service sig signalNotifier hq hinit hstart
  have hpre' : ∀ x ∈ pre, (∃ m, signalNotifier.lookup x = some (some m)) ∨
      (signalNotifier.lookup x = none ∧ ws.signalMap.lookup x = none) := by
    intro x hx
    rcases hpre x hx with h | ⟨h1, h2⟩
    · exact Or.inl h
    · exact Or.inr ⟨h1, hmap x h1 h2⟩
  have hstep : ∀ rest : List Signal,
      (windowsService.loop signalNotifier ws (s :: rest)).out =
          (windowsService.loop signalNotifier ws rest).out ∧
        (windowsService.loop signalNotifier ws (s :: rest)).trace =
          Event.signal s :: Event.receive n s ::
            (windowsService.loop signalNotifier ws rest).trace := by
    intro rest
    simp [windowsService.loop, hreg, Result.after]
  obtain ⟨a1, a2, _, _, _⟩ := windowsService_loop_alive signalNotifier ws pre [] hpre'
  obtain ⟨_, _, b3, _, b5⟩ := windowsService_loop_alive signalNotifier ws pre [s] hpre'
  obtain ⟨_, _, c3, _, c5⟩ := windowsService_loop_alive signalNotifier ws pre (s :: post) hpre'
  obtain ⟨_, _, d3, _, d5⟩ := windowsService_loop_alive signalNotifier ws pre post hpre'
  refine ⟨?_, ?_, ?_, ?_, ?_, (windowsService.loop signalNotifier ws post).trace, ?_, ?_⟩
  · rw [(hrun pre).1]
    exact a1
  · rw [(hrun pre).2]
    simp [a2]
  · rw [(hrun (pre ++ [s])).1, b3, (hstep []).1]
    simp [windowsService.loop]
  · rw [(hrun (pre ++ [s])).2, (hrun pre).2, b5, (hstep []).2]
    simp [windowsService.loop]
  · rw [(hrun (pre ++ s :: post)).1, (hrun (pre ++ post)).1, c3, d3, (hstep post).1]
  · rw [(hrun (pre ++ s :: post)).2, (hrun pre).2, c5, (hstep post).2]
    simp
  · rw [(hrun (pre ++ post)).2, (hrun pre).2, d5]
    simp

/-- At the console with signal 1 registered through `Notify` and passed to
`Run` as a shutdown signal as well: after signal 1 and signal 3 the loop is
waiting; a further signal 1 calls the function once more and SIGINT then stops
the service. -/
theorem Windows_Run_dispatches_handler_witness :
    (Notify 1 (some 7) GoMap.nil).2.lookup 1 = some (some 7) ∧
    ((Windows.Run console (Notify 1 (some 7) GoMap.nil).2 [1, 3] okService
        [1, SIGINT]).out = Outcome.blocked ∧
      Event.stop ∉ (Windows.Run console (Notify 1 (some 7) GoMap.nil).2 [1, 3] okService
        [1, SIGINT]).trace ∧
      (Windows.Run console (Notify 1 (some 7) GoMap.nil).2 ([1, 3] ++ [1]) okService
        [1, SIGINT]).out = Outcome.blocked ∧
      (Windows.Run console (Notify 1 (some 7) GoMap.nil).2 ([1, 3] ++ [1]) okService
          [1, SIGINT]).trace =
        (Windows.Run console (Notify 1 (some 7) GoMap.nil).2 [1, 3] okService
          [1, SIGINT]).trace ++ [Event.signal 1, Event.receive 7 1] ∧
      (Windows.Run console (Notify 1 (some 7) GoMap.nil).2 ([1, 3] ++ 1 :: [SIGINT]) okService
          [1, SIGINT]).out =
        (Windows.Run console (Notify 1 (some 7) GoMap.nil).2 ([1, 3] ++ [SIGINT]) okService
          [1, SIGINT]).out ∧
      ∃ b, (Windows.Run console (Notify 1 (some 7) GoMap.nil).2 ([1, 3] ++ 1 :: [SIGINT])
            okService [1, SIGINT]).trace =
          (Windows.Run console (Notify 1 (some 7) GoMap.nil).2 [1, 3] okService
            [1, SIGINT]).trace ++ Event.signal 1 :: Event.receive 7 1 :: b ∧
        (Windows.Run console (Notify 1 (some 7) GoMap.nil).2 ([1, 3] ++ [SIGINT]) okService
            [1, SIGINT]).trace =
          (Windows.Run console (Notify 1 (some 7) GoMap.nil).2 [1, 3] okService
            [1, SIGINT]).trace ++ b) ∧
    (Windows.Run console (Notify 1 (some 7) GoMap.nil).2 ([1, 3] ++ 1 :: [SIGINT]) okService
        [1, SIGINT]).trace =
      [Event.isAnInteractiveSession, Event.init ⟨false⟩, Event.start,
        Event.signalNotify [1, SIGINT, 1], Event.signal 1, Event.receive 7 1, Event.signal 3,
        Event.signal 1, Event.receive 7 1, Event.signal SIGINT, Event.stop] :=
  ⟨by decide,
    Windows_Run_dispatches_handler console okService [1, SIGINT]
      (Notify 1 (some 7) GoMap.nil).2 [1, 3] [SIGINT] 1 7 rfl rfl rfl (by decide)
      (by
        intro x hx
        simp only [List.mem_cons, List.mem_singleton, List.not_mem_nil, or_false] at hx
        rcases hx with rfl | rfl
        · exact Or.inl ⟨7, by decide⟩
        · exact Or.inr (by decide)),
    by decide⟩

end Svc
